import Mathlib

/-!
Shallow embedding of the ClinicalTrialsAnalysis repository core:
the record mapper / criteria splitter and upsert writer of
`src/main.py` and `src/enhanced_data_manager.py`, and the quality
rule engine / scorer of `src/data_quality_checker.py`.

Python strings are modelled as `List Char` (at char level where the
code manipulates characters) or `String`; Python `None` as `Option`;
Python floats as exact rationals `ℚ` (the quantities computed by the
scorer are small exact decimal fractions, far from any binary-float
rounding boundary); database rows as Lean structures and tables as
lists of rows.  Fallible Python code (raised exceptions, failed SQL
statements) is modelled with `Except`.
-/

namespace ClinicalTrials

/-! ## Python character/string primitives used by the code -/

/-- The characters Python's `str.strip()` removes for the ASCII inputs
the pipeline handles: `' '`, `'\t'`, `'\n'`, `'\r'`, `'\x0b'`, `'\x0c'`. -/
def isPySpace (c : Char) : Bool :=
  c = ' ' || c = '\t' || c = '\n' || c = '\r' || c = '\x0b' || c = '\x0c'

/-- Python `str.strip()`: drop leading and trailing whitespace. -/
def pyStrip (l : List Char) : List Char :=
  ((l.dropWhile isPySpace).reverse.dropWhile isPySpace).reverse

/-- `sep` occurs as a prefix of `l` (char-by-char). -/
def prefOf : List Char → List Char → Bool
  | [], _ => true
  | _ :: _, [] => false
  | a :: as, b :: bs => a = b && prefOf as bs

/-- Split `s` at the first occurrence of `sep`, returning the part before
and the part after, like Python `s.split(sep, 1)` when `sep in s`.
Returns `none` when `sep` does not occur (and `sep` is nonempty). -/
def splitFirst (sep : List Char) : List Char → Option (List Char × List Char)
  | [] => none
  | c :: rest =>
    if prefOf sep (c :: rest) then some ([], (c :: rest).drop sep.length)
    else match splitFirst sep rest with
      | some (l, r) => some (c :: l, r)
      | none => none

/-- Python `sep in s` (substring containment, for nonempty `sep`). -/
def containsSub (s sep : List Char) : Bool :=
  (splitFirst sep s).isSome

/-- Worker for `replaceAll`, structurally recursive on a fuel counter.
Every step consumes at least one character of the input (a match of a
nonempty `pat` consumes `pat.length ≥ 1` characters, a non-match one
character), so fuel equal to the input length is never exhausted. -/
def replaceAllAux (pat repl : List Char) : Nat → List Char → List Char
  | _, [] => []
  | 0, l => l
  | fuel + 1, c :: rest =>
    if pat ≠ [] && prefOf pat (c :: rest) then
      repl ++ replaceAllAux pat repl fuel ((c :: rest).drop pat.length)
    else
      c :: replaceAllAux pat repl fuel rest

/-- Python `s.replace(pat, repl)`: replace every (left-to-right,
non-overlapping) occurrence of `pat` by `repl`. -/
def replaceAll (pat repl l : List Char) : List Char :=
  replaceAllAux pat repl l.length l

/-! ## Calendar dates and `parse_date` (src/main.py lines 49-61) -/

structure Date where
  year : Nat
  month : Nat
  day : Nat
deriving DecidableEq, Repr

/-- Proleptic-Gregorian leap year, as Python's `datetime` uses. -/
def isLeap (y : Nat) : Bool :=
  y % 4 = 0 && (y % 100 ≠ 0 || y % 400 = 0)

def daysInMonth (y m : Nat) : Nat :=
  if m = 2 then (if isLeap y then 29 else 28)
  else if m = 4 || m = 6 || m = 9 || m = 11 then 30
  else 31

/-- The dates `datetime.date` accepts (year 1..9999). -/
def isValidDate (y m d : Nat) : Prop :=
  1 ≤ y ∧ y ≤ 9999 ∧ 1 ≤ m ∧ m ≤ 12 ∧ 1 ≤ d ∧ d ≤ daysInMonth y m

instance (y m d : Nat) : Decidable (isValidDate y m d) := by
  unfold isValidDate; infer_instance

def isDigitC (c : Char) : Bool :=
  c = '0' || c = '1' || c = '2' || c = '3' || c = '4' ||
  c = '5' || c = '6' || c = '7' || c = '8' || c = '9'

def digitVal (c : Char) : Nat :=
  if c = '0' then 0 else if c = '1' then 1 else if c = '2' then 2
  else if c = '3' then 3 else if c = '4' then 4 else if c = '5' then 5
  else if c = '6' then 6 else if c = '7' then 7 else if c = '8' then 8
  else 9

def digitChar : Nat → Char
  | 0 => '0' | 1 => '1' | 2 => '2' | 3 => '3' | 4 => '4'
  | 5 => '5' | 6 => '6' | 7 => '7' | 8 => '8' | _ => '9'

/-- `datetime.strptime(s, "%Y-%m").date()` on a length-7 string.
CPython's `_strptime` compiles `%Y` to exactly four digits and `%m` to
the alternatives `1[0-2]|0[1-9]|[1-9]` with a full-match requirement,
so a length-7 string parses iff it is `\d{4}-\d{2}` with the two month
digits denoting 1..12; `datetime` then requires year ≥ 1.  The parsed
date takes day 1. -/
def parseYM : List Char → Option Date
  | [y1, y2, y3, y4, h, m1, m2] =>
    if isDigitC y1 && isDigitC y2 && isDigitC y3 && isDigitC y4 &&
       h = '-' && isDigitC m1 && isDigitC m2 then
      let y := ((digitVal y1 * 10 + digitVal y2) * 10 + digitVal y3) * 10 + digitVal y4
      let m := digitVal m1 * 10 + digitVal m2
      if 1 ≤ y && 1 ≤ m && m ≤ 12 then some ⟨y, m, 1⟩ else none
    else none
  | _ => none

/-- `datetime.strptime(s, "%Y-%m-%d").date()` on a length-10 string:
`\d{4}-\d{2}-\d{2}` with month 1..12, day 1..31 (the `%d` pattern),
and then `datetime.date` validity (day within the month, year ≥ 1). -/
def parseYMD : List Char → Option Date
  | [y1, y2, y3, y4, h1, m1, m2, h2, d1, d2] =>
    if isDigitC y1 && isDigitC y2 && isDigitC y3 && isDigitC y4 &&
       h1 = '-' && isDigitC m1 && isDigitC m2 &&
       h2 = '-' && isDigitC d1 && isDigitC d2 then
      let y := ((digitVal y1 * 10 + digitVal y2) * 10 + digitVal y3) * 10 + digitVal y4
      let m := digitVal m1 * 10 + digitVal m2
      let d := digitVal d1 * 10 + digitVal d2
      if 1 ≤ y && 1 ≤ m && m ≤ 12 && 1 ≤ d && d ≤ daysInMonth y m then
        some ⟨y, m, d⟩
      else none
    else none
  | _ => none

/-- `parse_date` of src/main.py: empty input or any unparseable shape
yields `none` (the `try/except` turns every `ValueError` into `None`). -/
def parse_date (s : List Char) : Option Date :=
  if s = [] then none
  else if s.length = 7 then parseYM s
  else if s.length = 10 then parseYMD s
  else none

/-- `parse_date` applied to a possibly-`None` Python value
(`if not date_str: return None` also catches `None`). -/
def parseDateOpt (s : Option String) : Option Date :=
  match s with
  | none => none
  | some str => parse_date str.data

/-- Render a number with exactly two digits (values 0..99). -/
def pad2 (n : Nat) : List Char :=
  [digitChar (n / 10), digitChar (n % 10)]

/-- Render a number with exactly four digits (values 0..9999). -/
def pad4 (n : Nat) : List Char :=
  [digitChar (n / 1000), digitChar (n / 100 % 10), digitChar (n / 10 % 10), digitChar (n % 10)]

/-- The textual shape `YYYY-MM-DD`. -/
def renderYMD (y m d : Nat) : List Char :=
  pad4 y ++ '-' :: pad2 m ++ '-' :: pad2 d

/-- The textual shape `YYYY-MM`. -/
def renderYM (y m : Nat) : List Char :=
  pad4 y ++ '-' :: pad2 m

/-! ## The criteria splitter (src/main.py lines 118-126 / 377-384) -/

def exclusionMarkerS : String := "Exclusion Criteria"
def inclusionLabelS : String := "Inclusion Criteria:"

def exclusionMarker : List Char := exclusionMarkerS.data
def inclusionLabel : List Char := inclusionLabelS.data

/-- The splitting of a present (non-`None`) eligibility blob into
inclusion/exclusion segments, exactly as in src/main.py:
```
if 'Exclusion Criteria' in full_criteria_text:
    parts = full_criteria_text.split('Exclusion Criteria', 1)
    inclusion_criteria = parts[0].replace('Inclusion Criteria:', '').strip()
    exclusion_criteria = parts[1].strip()
elif full_criteria_text:
    inclusion_criteria = full_criteria_text.strip()
```
-/
def splitCriteria (full : List Char) : Option (List Char) × Option (List Char) :=
  match splitFirst exclusionMarker full with
  | some (l, r) => (some (pyStrip (replaceAll inclusionLabel [] l)), some (pyStrip r))
  | none => if full ≠ [] then (some (pyStrip full), none) else (none, none)

/-- Modelled from the spec: the splitter §4.1 describes the inclusion
text as "the left segment, with any leading `"Inclusion Criteria:"`
label stripped and whitespace trimmed".  This definition follows the
spec's words (remove one leading label occurrence only), to be compared
against `splitCriteria`, which embeds the source. -/
def splitCriteriaSpec (full : List Char) : Option (List Char) × Option (List Char) :=
  match splitFirst exclusionMarker full with
  | some (l, r) =>
    let l' := if prefOf inclusionLabel l then l.drop inclusionLabel.length else l
    (some (pyStrip l'), some (pyStrip r))
  | none => if full ≠ [] then (some (pyStrip full), none) else (none, none)

/-! ## The relational store

One structure per table, with exactly the columns the embedded code
reads or writes (`created_at`/`updated_at` bookkeeping timestamps are
not modelled; no claim mentions them). -/

structure BasicRow where
  nct_id : Option String
  protocol_section_id : Option String
  organization_name : Option String
  organization_type : Option String
  brief_title : Option String
  official_title : Option String
  status : Option String
  phase : Option String
  study_type : Option String
  enrollment_count : Option Int
  enrollment_type : Option String
  start_date : Option Date
  completion_date : Option Date
  primary_completion_date : Option Date
  is_fda_regulated_drug : Option Bool
  is_fda_regulated_device : Option Bool
  is_unapproved_device : Option Bool
  is_ppsd : Option Bool
  is_us_export : Option Bool
deriving DecidableEq, Repr

structure DescRow where
  nct_id : Option String
  brief_summary : Option String
  detailed_description : Option String
deriving DecidableEq, Repr

structure EligRow where
  nct_id : Option String
  inclusion_criteria : Option String
  exclusion_criteria : Option String
  minimum_age : Option String
  maximum_age : Option String
  gender : Option String
  healthy_volunteers : Option Bool
deriving DecidableEq, Repr

structure ArmRow where
  nct_id : Option String
  arm_group_label : Option String
  arm_group_type : Option String
  arm_group_description : Option String
  intervention_name : Option String
  intervention_type : Option String
  intervention_description : Option String
deriving DecidableEq, Repr

structure OutcomeRow where
  nct_id : Option String
  outcome_type : Option String
  outcome_measure : Option String
  outcome_description : Option String
  outcome_time_frame : Option String
deriving DecidableEq, Repr

structure LocationRow where
  nct_id : Option String
  facility_name : Option String
  facility_address : Option String
  facility_city : Option String
  facility_state : Option String
  facility_zip : Option String
  facility_country : Option String
  facility_contact_name : Option String
  facility_contact_phone : Option String
  facility_contact_email : Option String
deriving DecidableEq, Repr

structure ConditionRow where
  nct_id : Option String
  condition_name : Option String
deriving DecidableEq, Repr

structure KeywordRow where
  nct_id : Option String
  keyword : Option String
deriving DecidableEq, Repr

structure Store where
  trial_basic_info : List BasicRow
  trial_descriptions : List DescRow
  trial_eligibility : List EligRow
  trial_arms_interventions : List ArmRow
  trial_outcomes : List OutcomeRow
  trial_locations : List LocationRow
  trial_conditions : List ConditionRow
  trial_keywords : List KeywordRow
deriving DecidableEq, Repr

def emptyStore : Store := ⟨[], [], [], [], [], [], [], []⟩

/-- Errors a write statement (or the Python code preparing it) can
raise inside a transaction. -/
inductive Err where
  | uniqueViolation
  | connectivity
  | typeError
deriving DecidableEq, Repr

/-- `INSERT ... ON CONFLICT (nct_id) DO UPDATE SET <every mutable
column> = EXCLUDED.<column>`: if a row with the same non-NULL `nct_id`
exists, all its columns are overwritten with the attempted row's values
(SQL `NULL` never conflicts, so a NULL-keyed insert always appends). -/
def upsertBasic (cand : BasicRow) (rows : List BasicRow) : List BasicRow :=
  if cand.nct_id.isSome && rows.any (fun r => r.nct_id == cand.nct_id) then
    rows.map (fun r => if r.nct_id == cand.nct_id then cand else r)
  else rows ++ [cand]

/-- `ON CONFLICT (nct_id) DO UPDATE` for `trial_descriptions`
(src/enhanced_data_manager.py lines 116-122). -/
def upsertDesc (cand : DescRow) (rows : List DescRow) : List DescRow :=
  if cand.nct_id.isSome && rows.any (fun r => r.nct_id == cand.nct_id) then
    rows.map (fun r => if r.nct_id == cand.nct_id then cand else r)
  else rows ++ [cand]

/-- `ON CONFLICT (nct_id) DO UPDATE` for `trial_eligibility`
(src/enhanced_data_manager.py lines 131-143). -/
def upsertElig (cand : EligRow) (rows : List EligRow) : List EligRow :=
  if cand.nct_id.isSome && rows.any (fun r => r.nct_id == cand.nct_id) then
    rows.map (fun r => if r.nct_id == cand.nct_id then cand else r)
  else rows ++ [cand]

/-- Modelled from the spec: `database_schema.sql` is not under src/,
so the constraint set of `trial_descriptions` / `trial_eligibility` is
taken from the spec — §3 declares them 0:1 children keyed by `nct_id`
and §4.2 calls their writes "insert-or-update keyed on nct_id" (and the
`ON CONFLICT (nct_id)` clauses of enhanced_data_manager.py require a
unique index on `nct_id` to be accepted by PostgreSQL at all).  A plain
`INSERT` into such a table therefore raises a unique violation when a
row with the same non-NULL key already exists. -/
def insertUniqueDesc (cand : DescRow) (rows : List DescRow) :
    Except Err (List DescRow) :=
  if cand.nct_id.isSome && rows.any (fun r => r.nct_id == cand.nct_id) then
    .error .uniqueViolation
  else .ok (rows ++ [cand])

/-- Plain `INSERT` into `trial_eligibility` (unique key on `nct_id`,
modelled from the spec as for `insertUniqueDesc`). -/
def insertUniqueElig (cand : EligRow) (rows : List EligRow) :
    Except Err (List EligRow) :=
  if cand.nct_id.isSome && rows.any (fun r => r.nct_id == cand.nct_id) then
    .error .uniqueViolation
  else .ok (rows ++ [cand])

/-! ## EnhancedDataManager.insert_trial_data
(src/enhanced_data_manager.py lines 55-244) -/

/-- Python truthiness of an optional string (`None` and `""` falsy). -/
def truthyS (o : Option String) : Bool :=
  o.isSome && o ≠ some ("")

structure ArmInput where
  arm_group_label : Option String
  arm_group_type : Option String
  arm_group_description : Option String
  intervention_name : Option String
  intervention_type : Option String
  intervention_description : Option String
deriving DecidableEq, Repr

structure OutcomeInput where
  outcome_type : Option String
  outcome_measure : Option String
  outcome_description : Option String
  outcome_time_frame : Option String
deriving DecidableEq, Repr

structure LocationInput where
  facility_name : Option String
  facility_address : Option String
  facility_city : Option String
  facility_state : Option String
  facility_zip : Option String
  facility_country : Option String
  facility_contact_name : Option String
  facility_contact_phone : Option String
  facility_contact_email : Option String
deriving DecidableEq, Repr

/-- The flat `trial_data` dict consumed by
`EnhancedDataManager.insert_trial_data`.  A missing list key and an
empty list behave identically under Python truthiness, so the 0:N
groups are plain lists. -/
structure TrialData where
  nct_id : Option String
  protocol_section_id : Option String
  organization_name : Option String
  organization_type : Option String
  brief_title : Option String
  official_title : Option String
  status : Option String
  phase : Option String
  study_type : Option String
  enrollment_count : Option Int
  enrollment_type : Option String
  start_date : Option Date
  completion_date : Option Date
  primary_completion_date : Option Date
  is_fda_regulated_drug : Option Bool
  is_fda_regulated_device : Option Bool
  is_unapproved_device : Option Bool
  is_ppsd : Option Bool
  is_us_export : Option Bool
  brief_summary : Option String
  detailed_description : Option String
  inclusion_criteria : Option String
  exclusion_criteria : Option String
  minimum_age : Option String
  maximum_age : Option String
  gender : Option String
  healthy_volunteers : Option Bool
  arms_interventions : List ArmInput
  outcomes : List OutcomeInput
  locations : List LocationInput
  conditions : List String
  keywords : List String
deriving DecidableEq, Repr

def basicRowOfTrialData (t : TrialData) : BasicRow :=
  { nct_id := t.nct_id, protocol_section_id := t.protocol_section_id,
    organization_name := t.organization_name, organization_type := t.organization_type,
    brief_title := t.brief_title, official_title := t.official_title,
    status := t.status, phase := t.phase, study_type := t.study_type,
    enrollment_count := t.enrollment_count, enrollment_type := t.enrollment_type,
    start_date := t.start_date, completion_date := t.completion_date,
    primary_completion_date := t.primary_completion_date,
    is_fda_regulated_drug := t.is_fda_regulated_drug,
    is_fda_regulated_device := t.is_fda_regulated_device,
    is_unapproved_device := t.is_unapproved_device,
    is_ppsd := t.is_ppsd, is_us_export := t.is_us_export }

def descRowOfTrialData (t : TrialData) : DescRow :=
  { nct_id := t.nct_id, brief_summary := t.brief_summary,
    detailed_description := t.detailed_description }

def eligRowOfTrialData (t : TrialData) : EligRow :=
  { nct_id := t.nct_id, inclusion_criteria := t.inclusion_criteria,
    exclusion_criteria := t.exclusion_criteria, minimum_age := t.minimum_age,
    maximum_age := t.maximum_age, gender := t.gender,
    healthy_volunteers := t.healthy_volunteers }

def armRowOfInput (key : Option String) (a : ArmInput) : ArmRow :=
  { nct_id := key, arm_group_label := a.arm_group_label,
    arm_group_type := a.arm_group_type,
    arm_group_description := a.arm_group_description,
    intervention_name := a.intervention_name,
    intervention_type := a.intervention_type,
    intervention_description := a.intervention_description }

def outcomeRowOfInput (key : Option String) (o : OutcomeInput) : OutcomeRow :=
  { nct_id := key, outcome_type := o.outcome_type,
    outcome_measure := o.outcome_measure,
    outcome_description := o.outcome_description,
    outcome_time_frame := o.outcome_time_frame }

def locationRowOfInput (key : Option String) (l : LocationInput) : LocationRow :=
  { nct_id := key, facility_name := l.facility_name,
    facility_address := l.facility_address, facility_city := l.facility_city,
    facility_state := l.facility_state, facility_zip := l.facility_zip,
    facility_country := l.facility_country,
    facility_contact_name := l.facility_contact_name,
    facility_contact_phone := l.facility_contact_phone,
    facility_contact_email := l.facility_contact_email }

def conditionRowOfInput (key : Option String) (c : String) : ConditionRow :=
  { nct_id := key, condition_name := some c }

def keywordRowOfInput (key : Option String) (k : String) : KeywordRow :=
  { nct_id := key, keyword := some k }

/-- One SQL statement of the `insert_trial_data` transaction. -/
inductive Op where
  | upsertBasicOp (r : BasicRow)
  | upsertDescOp (r : DescRow)
  | upsertEligOp (r : EligRow)
  | insertArm (r : ArmRow)
  | insertOutcome (r : OutcomeRow)
  | insertLocation (r : LocationRow)
  | insertCondition (r : ConditionRow)
  | insertKeyword (r : KeywordRow)
deriving DecidableEq, Repr

def applyOp (s : Store) : Op → Store
  | .upsertBasicOp r => { s with trial_basic_info := upsertBasic r s.trial_basic_info }
  | .upsertDescOp r => { s with trial_descriptions := upsertDesc r s.trial_descriptions }
  | .upsertEligOp r => { s with trial_eligibility := upsertElig r s.trial_eligibility }
  | .insertArm r => { s with trial_arms_interventions := s.trial_arms_interventions ++ [r] }
  | .insertOutcome r => { s with trial_outcomes := s.trial_outcomes ++ [r] }
  | .insertLocation r => { s with trial_locations := s.trial_locations ++ [r] }
  | .insertCondition r => { s with trial_conditions := s.trial_conditions ++ [r] }
  | .insertKeyword r => { s with trial_keywords := s.trial_keywords ++ [r] }

/-- The statement sequence of `insert_trial_data` in source order:
basic-info upsert, description/eligibility upserts when their fields
are truthy, then one plain insert per child element. -/
def opsOfTrialData (t : TrialData) : List Op :=
  [Op.upsertBasicOp (basicRowOfTrialData t)] ++
  (if truthyS t.brief_summary || truthyS t.detailed_description then
    [Op.upsertDescOp (descRowOfTrialData t)] else []) ++
  (if truthyS t.inclusion_criteria || truthyS t.exclusion_criteria then
    [Op.upsertEligOp (eligRowOfTrialData t)] else []) ++
  t.arms_interventions.map (fun a => Op.insertArm (armRowOfInput t.nct_id a)) ++
  t.outcomes.map (fun o => Op.insertOutcome (outcomeRowOfInput t.nct_id o)) ++
  t.locations.map (fun l => Op.insertLocation (locationRowOfInput t.nct_id l)) ++
  t.conditions.map (fun c => Op.insertCondition (conditionRowOfInput t.nct_id c)) ++
  t.keywords.map (fun k => Op.insertKeyword (keywordRowOfInput t.nct_id k))

/-- One unit of connectivity budget: `some k` means the connection will
fail at the (k+1)-th statement from now (modelling connectivity loss at
an arbitrary point of the transaction); `none` means no fault. -/
def tick : Option Nat → Except Err (Option Nat)
  | none => .ok none
  | some 0 => .error .connectivity
  | some (k + 1) => .ok (some k)

/-- Execute one `cursor.execute` per element of `xs`, each applying the
pure table update `f`. -/
def execList (f : Store → α → Store) :
    Option Nat → Store → List α → Except Err (Option Nat × Store)
  | b, s, [] => .ok (b, s)
  | b, s, x :: rest =>
    match tick b with
    | .error e => .error e
    | .ok b' => execList f b' (f s x) rest

/-- `EnhancedDataManager.insert_trial_data`: run the write sequence,
`commit` on success (returning `True`), `rollback` on any exception
(returning `False`: the store is exactly as before the call). -/
def insert_trial_data (b : Option Nat) (s : Store) (t : TrialData) : Bool × Store :=
  match execList applyOp b s (opsOfTrialData t) with
  | .ok (_, s') => (true, s')
  | .error _ => (false, s)

/-- The pure all-writes-applied summary of one record's transaction. -/
def applyTrial (t : TrialData) (s : Store) : Store :=
  (opsOfTrialData t).foldl applyOp s

/-- The row a statement inserts into `trial_arms_interventions`, if any. -/
def opArm : Op → Option ArmRow
  | .insertArm r => some r
  | _ => none

def opOutcome : Op → Option OutcomeRow
  | .insertOutcome r => some r
  | _ => none

def opLocation : Op → Option LocationRow
  | .insertLocation r => some r
  | _ => none

def opCondition : Op → Option ConditionRow
  | .insertCondition r => some r
  | _ => none

def opKeyword : Op → Option KeywordRow
  | .insertKeyword r => some r
  | _ => none

def opDesc : Op → Option DescRow
  | .upsertDescOp r => some r
  | _ => none

def opElig : Op → Option EligRow
  | .upsertEligOp r => some r
  | _ => none

/-! ## The raw registry record and the src/main.py ingestion path -/

structure OrgStudyIdInfo where
  id : Option String
deriving DecidableEq, Repr

structure Organization where
  fullName : Option String
  orgClass : Option String
deriving DecidableEq, Repr

structure IdentModule where
  nctId : Option String
  orgStudyIdInfo : Option OrgStudyIdInfo
  organization : Option Organization
  briefTitle : Option String
  officialTitle : Option String
deriving DecidableEq, Repr

structure DateStruct where
  date : Option String
deriving DecidableEq, Repr

structure StatusModule where
  overallStatus : Option String
  statusVerifiedDate : Option String
  startDateStruct : Option DateStruct
  completionDateStruct : Option DateStruct
  primaryCompletionDateStruct : Option DateStruct
  expandedAccessStatus : Option String
deriving DecidableEq, Repr

structure EnrollmentInfo where
  enrollmentCount : Option Int
  enrollmentType : Option String
deriving DecidableEq, Repr

structure DesignModule where
  studyType : Option String
  phase : Option String
  enrollmentInfo : Option EnrollmentInfo
deriving DecidableEq, Repr

structure OversightModule where
  isFdaRegulatedDrug : Option Bool
  isFdaRegulatedDevice : Option Bool
  isUnapprovedDevice : Option Bool
  isPpsd : Option Bool
  isUsExport : Option Bool
deriving DecidableEq, Repr

/-- The value under `eligibilityCriteria`: the registry sends either a
free-text blob or (legacy shape handled by the code) a dict with a
`textblock` key. -/
inductive Criteria where
  | text (s : String)
  | dict (textblock : Option String)
deriving DecidableEq, Repr

structure EligModule where
  eligibilityCriteria : Option Criteria
  minimumAge : Option String
  maximumAge : Option String
  gender : Option String
  healthyVolunteers : Option Bool
deriving DecidableEq, Repr

structure DescModule where
  briefSummary : Option String
  detailedDescription : Option String
deriving DecidableEq, Repr

structure ArmGroup where
  label : Option String
  description : Option String
  interventionNames : List String
deriving DecidableEq, Repr

structure Intervention where
  name : Option String
  description : Option String
  armGroupLabels : List String
deriving DecidableEq, Repr

structure ArmsModule where
  armGroups : List ArmGroup
  interventions : List Intervention
deriving DecidableEq, Repr

structure OutcomeEntry where
  measure : Option String
  timeFrame : Option String
  description : Option String
deriving DecidableEq, Repr

structure OutcomesModule where
  primaryOutcomes : List OutcomeEntry
  secondaryOutcomes : List OutcomeEntry
deriving DecidableEq, Repr

structure RawLocation where
  facility : Option String
  city : Option String
  state : Option String
  zip : Option String
  country : Option String
deriving DecidableEq, Repr

structure ContactsModule where
  locations : List RawLocation
deriving DecidableEq, Repr

/-- One `protocolSection` record as consumed by src/main.py; every
module is optional (`trial.get('xModule', {})`). -/
structure RawTrial where
  identificationModule : Option IdentModule
  statusModule : Option StatusModule
  designModule : Option DesignModule
  oversightModule : Option OversightModule
  eligibilityModule : Option EligModule
  descriptionModule : Option DescModule
  armsInterventionsModule : Option ArmsModule
  outcomesModule : Option OutcomesModule
  contactsLocationsModule : Option ContactsModule
deriving DecidableEq, Repr

def emptyIdent : IdentModule := ⟨none, none, none, none, none⟩
def emptyStatus : StatusModule := ⟨none, none, none, none, none, none⟩
def emptyDesign : DesignModule := ⟨none, none, none⟩
def emptyOversight : OversightModule := ⟨none, none, none, none, none⟩
def emptyElig : EligModule := ⟨none, none, none, none, none⟩
def emptyDesc : DescModule := ⟨none, none⟩
def emptyArms : ArmsModule := ⟨[], []⟩
def emptyOutcomes : OutcomesModule := ⟨[], []⟩
def emptyContacts : ContactsModule := ⟨[]⟩

/-- `full_criteria_text` of src/main.py lines 110-115 (insert_basic_info):
no `or ''` guard, so an absent blob stays `None`. -/
def fullCriteriaText (e : EligModule) : Option String :=
  match e.eligibilityCriteria with
  | some (.dict tb) => some (tb.getD (""))
  | some (.text s) => some s
  | none => none

/-- Python `'Exclusion Criteria' in full_criteria_text` raises
`TypeError` when the operand is `None`. -/
def pyInOpt (needle : List Char) : Option String → Except Err Bool
  | none => .error .typeError
  | some s => .ok (containsSub s.data needle)

/-- The criteria extraction of `insert_basic_info` (src/main.py lines
110-126).  The containment test runs on the unguarded
`full_criteria_text` and therefore raises on an absent blob. -/
def extractCriteriaInsertBasicInfo (e : EligModule) :
    Except Err (Option String × Option String) := do
  let full := fullCriteriaText e
  let present ← pyInOpt exclusionMarker full
  if present then
    let (i, x) := splitCriteria (full.getD ("")).data
    pure (i.map List.asString, x.map List.asString)
  else if truthyS full then
    pure (some (pyStrip (full.getD ("")).data).asString, none)
  else
    pure (none, none)

/-- The criteria extraction of `search_and_extract_trials` /
`get_trial_by_id` (src/main.py lines 371-384): here the blob is guarded
with `or ''`, so absence never raises. -/
def extractCriteriaSearch (e : EligModule) : Option String × Option String :=
  let full : String :=
    match e.eligibilityCriteria with
    | some (.dict tb) => tb.getD ("")
    | some (.text s) => s
    | none => ""
  let (i, x) := splitCriteria full.data
  (i.map List.asString, x.map List.asString)

/-- The 19-column candidate row of `insert_basic_info`'s basic-info
upsert (src/main.py lines 198-218). -/
def basicRowOfRaw (t : RawTrial) : BasicRow :=
  let ident := t.identificationModule.getD emptyIdent
  let status := t.statusModule.getD emptyStatus
  let design := t.designModule.getD emptyDesign
  let oversight := t.oversightModule.getD emptyOversight
  { nct_id := ident.nctId,
    protocol_section_id := (ident.orgStudyIdInfo.getD ⟨none⟩).id,
    organization_name := (ident.organization.getD ⟨none, none⟩).fullName,
    organization_type := (ident.organization.getD ⟨none, none⟩).orgClass,
    brief_title := ident.briefTitle,
    official_title := ident.officialTitle,
    status := status.overallStatus,
    phase := design.phase,
    study_type := design.studyType,
    enrollment_count := (design.enrollmentInfo.getD ⟨none, none⟩).enrollmentCount,
    enrollment_type := (design.enrollmentInfo.getD ⟨none, none⟩).enrollmentType,
    start_date := parseDateOpt ((status.startDateStruct.getD ⟨none⟩).date),
    completion_date := parseDateOpt ((status.completionDateStruct.getD ⟨none⟩).date),
    primary_completion_date := parseDateOpt ((status.primaryCompletionDateStruct.getD ⟨none⟩).date),
    is_fda_regulated_drug := oversight.isFdaRegulatedDrug,
    is_fda_regulated_device := oversight.isFdaRegulatedDevice,
    is_unapproved_device := oversight.isUnapprovedDevice,
    is_ppsd := oversight.isPpsd,
    is_us_export := oversight.isUsExport }

/-- `insert_basic_info` of src/main.py (lines 101-247): criteria
extraction (which may raise), basic-info upsert, then — with no
`ON CONFLICT` clause — a plain `INSERT` into `trial_descriptions` when
a summary or detailed description is truthy, and a plain `INSERT` into
`trial_eligibility` when inclusion or exclusion text is truthy. -/
def insert_basic_info (s : Store) (t : RawTrial) : Except Err Store := do
  let ident := t.identificationModule.getD emptyIdent
  let eligibility := t.eligibilityModule.getD emptyElig
  let description := t.descriptionModule.getD emptyDesc
  let (inclusion, exclusion) ← extractCriteriaInsertBasicInfo eligibility
  let s := { s with trial_basic_info := upsertBasic (basicRowOfRaw t) s.trial_basic_info }
  let s ←
    if truthyS description.briefSummary || truthyS description.detailedDescription then do
      let rows ← insertUniqueDesc
        { nct_id := ident.nctId, brief_summary := description.briefSummary,
          detailed_description := description.detailedDescription }
        s.trial_descriptions
      pure { s with trial_descriptions := rows }
    else pure s
  let s ←
    if truthyS inclusion || truthyS exclusion then do
      let rows ← insertUniqueElig
        { nct_id := ident.nctId, inclusion_criteria := inclusion,
          exclusion_criteria := exclusion, minimum_age := eligibility.minimumAge,
          maximum_age := eligibility.maximumAge, gender := eligibility.gender,
          healthy_volunteers := eligibility.healthyVolunteers }
        s.trial_eligibility
      pure { s with trial_eligibility := rows }
    else pure s
  pure s

def joinSemicolon (l : List String) : String :=
  String.intercalate ("; ") l

/-- `insert_arms_interventions` of src/main.py (lines 249-275): pure
inserts; note the source's column mapping for intervention rows
(`arm_group_label` receives the intervention name and
`intervention_name` the joined arm-group labels). -/
def insert_arms_interventions (s : Store) (t : RawTrial) : Store :=
  let ai := t.armsInterventionsModule.getD emptyArms
  let key := (t.identificationModule.getD emptyIdent).nctId
  let s := ai.armGroups.foldl
    (fun s arm =>
      { s with trial_arms_interventions := s.trial_arms_interventions ++
        [{ nct_id := key, intervention_type := some ("Arm Group"),
           arm_group_label := arm.label, arm_group_type := none,
           arm_group_description := none,
           intervention_description := some (arm.description.getD ("")),
           intervention_name := some (joinSemicolon arm.interventionNames) }] }) s
  ai.interventions.foldl
    (fun s iv =>
      { s with trial_arms_interventions := s.trial_arms_interventions ++
        [{ nct_id := key, intervention_type := some ("Intervention"),
           arm_group_label := iv.name, arm_group_type := none,
           arm_group_description := none,
           intervention_description := some (iv.description.getD ("")),
           intervention_name := some (joinSemicolon iv.armGroupLabels) }] }) s

/-- `insert_outcomes` of src/main.py (lines 277-303): pure inserts,
primary then secondary. -/
def insert_outcomes (s : Store) (t : RawTrial) : Store :=
  let outcomes := t.outcomesModule.getD emptyOutcomes
  let key := (t.identificationModule.getD emptyIdent).nctId
  let s := outcomes.primaryOutcomes.foldl
    (fun s po =>
      { s with trial_outcomes := s.trial_outcomes ++
        [{ nct_id := key, outcome_type := some ("Primary"),
           outcome_measure := po.measure, outcome_time_frame := po.timeFrame,
           outcome_description := some (po.description.getD ("")) }] }) s
  outcomes.secondaryOutcomes.foldl
    (fun s so =>
      { s with trial_outcomes := s.trial_outcomes ++
        [{ nct_id := key, outcome_type := some ("Secondary"),
           outcome_measure := so.measure, outcome_time_frame := so.timeFrame,
           outcome_description := some (so.description.getD ("")) }] }) s

/-- `insert_locations` of src/main.py (lines 305-323): pure inserts. -/
def insert_locations (s : Store) (t : RawTrial) : Store :=
  let locs := (t.contactsLocationsModule.getD emptyContacts).locations
  let key := (t.identificationModule.getD emptyIdent).nctId
  locs.foldl
    (fun s loc =>
      { s with trial_locations := s.trial_locations ++
        [{ nct_id := key, facility_name := loc.facility,
           facility_address := none, facility_city := loc.city,
           facility_state := loc.state, facility_zip := loc.zip,
           facility_country := loc.country, facility_contact_name := none,
           facility_contact_phone := none, facility_contact_email := none }] }) s

/-- The per-record write sequence of the `search_and_extract_trials`
ingestion loop (src/main.py lines 355-360). -/
def persistOneTrial (s : Store) (t : RawTrial) : Except Err Store := do
  let s ← insert_basic_info s t
  let s := insert_arms_interventions s t
  let s := insert_outcomes s t
  pure (insert_locations s t)

def persistTrials (s : Store) : List RawTrial → Except Err Store
  | [] => .ok s
  | t :: rest => do persistTrials (← persistOneTrial s t) rest

/-- The database effect of one `search_and_extract_trials` call
(src/main.py lines 350-411): all records of the batch share one
transaction — `conn.commit()` after the loop on success, a single
`conn.rollback()` on any exception. -/
def searchAndExtractPersist (s : Store) (ts : List RawTrial) : Bool × Store :=
  match persistTrials s ts with
  | .ok s' => (true, s')
  | .error _ => (false, s)

/-! ## DataQualityChecker (src/data_quality_checker.py)

The checker reads the same eight tables.  Each category function takes
a fault flag (`true` models a store-connectivity failure aborting the
category: the `except` branch logs and returns `{}` without appending
issues) and threads the checker's mutable `self.quality_issues` list.
Results of a category are the ordered name→count mapping the Python
dict holds. -/

/-- SQL equality join condition `a.nct_id = b.nct_id`: true only when
both sides are non-NULL and equal. -/
def sqlKeyEq (a b : Option String) : Bool :=
  match a, b with
  | some x, some y => x == y
  | _, _ => false

/-- Lexicographic order on dates, as SQL compares `DATE` values. -/
def dateLt (a b : Date) : Bool :=
  a.year < b.year ||
  (a.year = b.year && (a.month < b.month ||
    (a.month = b.month && a.day < b.day)))

/-- `field IS NULL OR field = ''`. -/
def nullOrEmpty (o : Option String) : Bool :=
  o.isNone || o == some ("")

def countBasic (c : Store) (p : BasicRow → Bool) : Nat :=
  (c.trial_basic_info.filter p).length

/-- The eight completeness counts, in the dict order of
`check_data_completeness` (src/data_quality_checker.py lines 44-53). -/
def completenessChecks (c : Store) : List (String × Nat) :=
  [ ("missing_nct_id", countBasic c (fun r => nullOrEmpty r.nct_id)),
    ("missing_brief_title", countBasic c (fun r => nullOrEmpty r.brief_title)),
    ("missing_official_title", countBasic c (fun r => nullOrEmpty r.official_title)),
    ("missing_status", countBasic c (fun r => nullOrEmpty r.status)),
    ("missing_study_type", countBasic c (fun r => nullOrEmpty r.study_type)),
    ("missing_organization", countBasic c (fun r => nullOrEmpty r.organization_name)),
    ("missing_descriptions", countBasic c (fun r =>
      !(c.trial_descriptions.any (fun d => sqlKeyEq r.nct_id d.nct_id)))),
    ("missing_eligibility", countBasic c (fun r =>
      !(c.trial_eligibility.any (fun e => sqlKeyEq r.nct_id e.nct_id)))) ]

def completenessIssues (c : Store) : List String :=
  (completenessChecks c).filterMap (fun p =>
    if p.2 > 0 then some (p.1 ++ ": " ++ Nat.repr p.2 ++ " records missing") else none)

def check_data_completeness (fault : Bool) (c : Store) (issues : List String) :
    List (String × Nat) × List String :=
  if fault then ([], issues)
  else (completenessChecks c, issues ++ completenessIssues c)

/-- Worker for `dedupFirst`: drop values already seen, keep the first
occurrence of each new value. -/
def dedupAux [DecidableEq α] : List α → List α → List α
  | _, [] => []
  | seen, a :: l =>
    if a ∈ seen then dedupAux seen l else a :: dedupAux (a :: seen) l

/-- Keep the first occurrence of each value (the distinct groups of a
SQL `GROUP BY`, in first-appearance order). -/
def dedupFirst [DecidableEq α] (l : List α) : List α := dedupAux [] l

/-- `SELECT nct_id, COUNT(*) FROM trial_basic_info GROUP BY nct_id
HAVING COUNT(*) > 1` (SQL groups NULL keys together). -/
def duplicate_nct_ids (c : Store) : List (Option String × Nat) :=
  (dedupFirst (c.trial_basic_info.map (fun r => r.nct_id))).filterMap
    (fun k =>
      let n := (c.trial_basic_info.map (fun r => r.nct_id)).count k
      if n > 1 then some (k, n) else none)

def invalidDatesCount (c : Store) : Nat :=
  countBasic c (fun r =>
    (match r.start_date, r.completion_date with
     | some s, some e => dateLt e s
     | _, _ => false) ||
    (match r.start_date, r.primary_completion_date with
     | some s, some e => dateLt e s
     | _, _ => false))

def invalidEnrollmentCount (c : Store) : Nat :=
  countBasic c (fun r =>
    match r.enrollment_count with
    | some n => n < 0 || n > 1000000
    | none => false)

def orphanedRecordsCount (c : Store) : Nat :=
  (c.trial_descriptions.filter (fun d =>
    !(c.trial_basic_info.any (fun r => sqlKeyEq d.nct_id r.nct_id)))).length

/-- The four consistency results in dict order
(src/data_quality_checker.py lines 75-96). -/
def consistencyChecks (c : Store) : List (String × Nat) :=
  [ ("invalid_dates", invalidDatesCount c),
    ("invalid_enrollment", invalidEnrollmentCount c),
    ("duplicate_nct_ids", (duplicate_nct_ids c).length),
    ("orphaned_records", orphanedRecordsCount c) ]

def showOptStr : Option String → String
  | none => "None"
  | some s => s

def countIssueLine (name : String) (n : Nat) : String :=
  name ++ ": " ++ Nat.repr n ++ " records with issues"

def consistencyIssues (c : Store) : List String :=
  (if invalidDatesCount c > 0 then [countIssueLine ("invalid_dates") (invalidDatesCount c)] else []) ++
  (if invalidEnrollmentCount c > 0 then [countIssueLine ("invalid_enrollment") (invalidEnrollmentCount c)] else []) ++
  (if (duplicate_nct_ids c) ≠ [] then
    ("duplicate_nct_ids: " ++ Nat.repr (duplicate_nct_ids c).length ++ " duplicate NCT IDs found") ::
      (duplicate_nct_ids c).map (fun p =>
        "  - NCT ID " ++ showOptStr p.1 ++ " appears " ++ Nat.repr p.2 ++ " times")
   else []) ++
  (if orphanedRecordsCount c > 0 then [countIssueLine ("orphaned_records") (orphanedRecordsCount c)] else [])

def check_data_consistency (fault : Bool) (c : Store) (issues : List String) :
    List (String × Nat) × List String :=
  if fault then ([], issues)
  else (consistencyChecks c, issues ++ consistencyIssues c)

/-- `nct_id ~ '^NCT[0-9]{8}$'`. -/
def nctFormatOk (s : String) : Bool :=
  match s.data with
  | 'N' :: 'C' :: 'T' :: rest => rest.length = 8 && rest.all isDigitC
  | _ => false

def emailLocalChar (c : Char) : Bool :=
  c.isAlpha || isDigitC c || c = '.' || c = '_' || c = '%' || c = '+' || c = '-'

def emailDomainChar (c : Char) : Bool :=
  c.isAlpha || isDigitC c || c = '.' || c = '-'

/-- All ways to cut a list in two. -/
def cuts : List Char → List (List Char × List Char)
  | [] => [([], [])]
  | c :: rest => ([], c :: rest) :: (cuts rest).map (fun p => (c :: p.1, p.2))

/-- `^[A-Za-z0-9._%+-]+@[A-Za-z0-9.-]+\.[A-Za-z]{2,}$`: a nonempty
local part, `@`, then a domain that splits as a nonempty run of domain
characters, a dot, and at least two letters. -/
def emailFormatOk (s : String) : Bool :=
  (cuts s.data).any (fun p =>
    match p.2 with
    | '@' :: dom =>
      p.1 ≠ [] && p.1.all emailLocalChar &&
      (cuts dom).any (fun q =>
        match q.2 with
        | '.' :: tld => q.1 ≠ [] && q.1.all emailDomainChar &&
            tld.length ≥ 2 && tld.all Char.isAlpha
        | _ => false)
    | _ => false)

def phoneChar (c : Char) : Bool :=
  isDigitC c || isPySpace c || c = '-' || c = '(' || c = ')'

/-- `^[+]?[0-9\s\-\(\)]{10,}$`. -/
def phoneFormatOk (s : String) : Bool :=
  match s.data with
  | '+' :: rest => rest.length ≥ 10 && rest.all phoneChar
  | l => l.length ≥ 10 && l.all phoneChar

/-- `CURRENT_DATE + INTERVAL '10 years'` (PostgreSQL clamps Feb 29 to
Feb 28 when the target year is not a leap year). -/
def plusTenYears (d : Date) : Date :=
  if d.month = 2 && d.day = 29 && !isLeap (d.year + 10) then
    ⟨d.year + 10, 2, 28⟩
  else ⟨d.year + 10, d.month, d.day⟩

def dateBefore1900 (d : Date) : Bool := dateLt d ⟨1900, 1, 1⟩

/-- The offending rows of the four format checks, rendered for the
example lines; the checks run over `trial_basic_info` (NCT ids, date
ranges) and `trial_locations` (emails, phones).  A SQL `!~` or `<`
predicate on a NULL value is NULL, so NULL fields are never flagged. -/
def invalidNctRows (c : Store) : List String :=
  c.trial_basic_info.filterMap (fun r =>
    match r.nct_id with
    | some s => if nctFormatOk s then none else some s
    | none => none)

def invalidEmailRows (c : Store) : List String :=
  c.trial_locations.filterMap (fun l =>
    match l.facility_contact_email with
    | some s => if emailFormatOk s then none else some s
    | none => none)

def invalidPhoneRows (c : Store) : List String :=
  c.trial_locations.filterMap (fun l =>
    match l.facility_contact_phone with
    | some s => if phoneFormatOk s then none else some s
    | none => none)

def showDate (d : Date) : String :=
  (renderYMD d.year d.month d.day).asString

def showOptDate : Option Date → String
  | none => "None"
  | some d => showDate d

/-- A rendering of one offending `(nct_id, start_date, completion_date)`
row for the report's example lines. -/
def renderDateRow (r : BasicRow) : String :=
  showOptStr r.nct_id ++ ", " ++ showOptDate r.start_date ++ ", " ++
    showOptDate r.completion_date

def invalidDateFormatRows (today : Date) (c : Store) : List String :=
  (c.trial_basic_info.filter (fun r =>
    (match r.start_date with
     | some d => dateBefore1900 d || dateLt (plusTenYears today) d
     | none => false) ||
    (match r.completion_date with
     | some d => dateBefore1900 d || dateLt (plusTenYears today) d
     | none => false))).map renderDateRow

/-- The four format results in dict order
(src/data_quality_checker.py lines 126-148). -/
def formatChecks (today : Date) (c : Store) : List (String × Nat) :=
  [ ("invalid_nct_format", (invalidNctRows c).length),
    ("invalid_email_format", (invalidEmailRows c).length),
    ("invalid_phone_format", (invalidPhoneRows c).length),
    ("invalid_date_format", (invalidDateFormatRows today c).length) ]

def formatIssueBlock (name : String) (rows : List String) : List String :=
  if rows ≠ [] then
    (name ++ ": " ++ Nat.repr rows.length ++ " records with format issues") ::
      (rows.take 5).map (fun s => "  - Example: " ++ s)
  else []

def formatIssues (today : Date) (c : Store) : List String :=
  formatIssueBlock ("invalid_nct_format") (invalidNctRows c) ++
  formatIssueBlock ("invalid_email_format") (invalidEmailRows c) ++
  formatIssueBlock ("invalid_phone_format") (invalidPhoneRows c) ++
  formatIssueBlock ("invalid_date_format") (invalidDateFormatRows today c)

def check_data_format (fault : Bool) (today : Date) (c : Store) (issues : List String) :
    List (String × Nat) × List String :=
  if fault then ([], issues)
  else (formatChecks today c, issues ++ formatIssues today c)

/-- The four relationship results in dict order
(src/data_quality_checker.py lines 172-193). -/
def relationshipChecks (c : Store) : List (String × Nat) :=
  [ ("missing_conditions", countBasic c (fun r =>
      !(c.trial_conditions.any (fun x => sqlKeyEq r.nct_id x.nct_id)))),
    ("missing_keywords", countBasic c (fun r =>
      !(c.trial_keywords.any (fun x => sqlKeyEq r.nct_id x.nct_id)))),
    ("missing_outcomes", countBasic c (fun r =>
      !(c.trial_outcomes.any (fun x => sqlKeyEq r.nct_id x.nct_id)))),
    ("missing_locations", countBasic c (fun r =>
      !(c.trial_locations.any (fun x => sqlKeyEq r.nct_id x.nct_id)))) ]

def relationshipIssues (c : Store) : List String :=
  (relationshipChecks c).filterMap (fun p =>
    if p.2 > 0 then some (p.1 ++ ": " ++ Nat.repr p.2 ++ " trials missing related data") else none)

def check_data_relationships (fault : Bool) (c : Store) (issues : List String) :
    List (String × Nat) × List String :=
  if fault then ([], issues)
  else (relationshipChecks c, issues ++ relationshipIssues c)

/-! ## Scorer (check_data_quality_score, lines 210-289) -/

structure Faults where
  completeness : Bool
  consistency : Bool
  format : Bool
  relationships : Bool
deriving DecidableEq, Repr

def noFaults : Faults := ⟨false, false, false, false⟩

structure QualityAssessment where
  overall_score : ℚ
  completeness_score : ℚ
  consistency_score : ℚ
  format_score : ℚ
  relationship_score : ℚ
  total_trials : Nat
  total_issues : Nat
  quality_level : String
  message : Option String
deriving DecidableEq, Repr

/-- Python `round(x, 2)` on the exact rationals the scorer produces:
round to the nearest multiple of 1/100 (here half-up; Python rounds
ties half-to-even, but none of the quantities the scorer produces hit
a half-way tie, so the tie-breaking rule is immaterial). -/
def round2 (q : ℚ) : ℚ := (Rat.floor (q * 100 + 1 / 2) : ℚ) / 100

/-- `_get_quality_level` (lines 278-289), applied to the unrounded
overall score as in the source. -/
def quality_level_of (score : ℚ) : String :=
  if 90 ≤ score then ("Excellent")
  else if 80 ≤ score then ("Good")
  else if 70 ≤ score then ("Fair")
  else if 60 ≤ score then ("Poor")
  else ("Critical")

def sumCounts (l : List (String × Nat)) : Nat :=
  (l.map (fun p => p.2)).sum

def categoryScore (issueCount total : Nat) : ℚ :=
  max 0 (100 - ((issueCount : ℚ) / (total : ℚ)) * 100)

/-- `check_data_quality_score`: counts `trial_basic_info`; on an empty
corpus returns the fixed "No Data" assessment without running the four
categories; otherwise reruns all four category checks (each appending
to the shared issue list), computes the weighted score from the
unrounded category scores, and reports `total_issues` as the current
length of the shared issue list. -/
def check_data_quality_score (f : Faults) (today : Date) (c : Store)
    (issues : List String) : QualityAssessment × List String :=
  let total := c.trial_basic_info.length
  if total = 0 then
    ({ overall_score := 0, completeness_score := 0, consistency_score := 0,
       format_score := 0, relationship_score := 0, total_trials := 0,
       total_issues := 0, quality_level := "No Data",
       message := some ("No trials found") }, issues)
  else
    let (comp, issues) := check_data_completeness f.completeness c issues
    let completeness_score := categoryScore (sumCounts comp) total
    let (cons, issues) := check_data_consistency f.consistency c issues
    let consistency_score := categoryScore (sumCounts cons) total
    let (fmt, issues) := check_data_format f.format today c issues
    let format_score := categoryScore (sumCounts fmt) total
    let (rel, issues) := check_data_relationships f.relationships c issues
    let relationship_score := categoryScore (sumCounts rel) total
    let overall_score :=
      completeness_score * (3 / 10) + consistency_score * (3 / 10) +
      format_score * (2 / 10) + relationship_score * (2 / 10)
    ({ overall_score := round2 overall_score,
       completeness_score := round2 completeness_score,
       consistency_score := round2 consistency_score,
       format_score := round2 format_score,
       relationship_score := round2 relationship_score,
       total_trials := total, total_issues := issues.length,
       quality_level := quality_level_of overall_score,
       message := none }, issues)

structure RunResults where
  completeness : List (String × Nat)
  consistency : List (String × Nat)
  format : List (String × Nat)
  relationships : List (String × Nat)
  quality_assessment : QualityAssessment
  issues : List String
deriving DecidableEq, Repr

/-- The issue lines one pass of the four category checks appends. -/
def onePassIssues (today : Date) (c : Store) : List String :=
  completenessIssues c ++ consistencyIssues c ++ formatIssues today c ++
    relationshipIssues c

/-- `run_full_quality_check` (lines 333-348) on a freshly constructed
checker (`self.quality_issues = []`): the four categories run once
directly, then `check_data_quality_score` runs them all again against
the same never-reset issue list. -/
def run_full_quality_check (f : Faults) (today : Date) (c : Store) : RunResults :=
  let (comp, i1) := check_data_completeness f.completeness c []
  let (cons, i2) := check_data_consistency f.consistency c i1
  let (fmt, i3) := check_data_format f.format today c i2
  let (rel, i4) := check_data_relationships f.relationships c i3
  let (qa, i5) := check_data_quality_score f today c i4
  { completeness := comp, consistency := cons, format := fmt,
    relationships := rel, quality_assessment := qa, issues := i5 }

/-! ## Concrete corpora and records used by the witnesses and
counterexamples -/

/-- A fully-populated `BasicRow` with the given identifier and brief
title, no dates and no enrollment figure. -/
def mkBasic (id : String) (title : Option String) : BasicRow :=
  { nct_id := some id, protocol_section_id := none,
    organization_name := some ("Org"), organization_type := none,
    brief_title := title, official_title := some ("Official Title"),
    status := some ("COMPLETED"), phase := none,
    study_type := some ("INTERVENTIONAL"), enrollment_count := none,
    enrollment_type := none, start_date := none, completion_date := none,
    primary_completion_date := none, is_fda_regulated_drug := none,
    is_fda_regulated_device := none, is_unapproved_device := none,
    is_ppsd := none, is_us_export := none }

def mkDesc (id : String) : DescRow :=
  { nct_id := some id, brief_summary := some ("Summary"),
    detailed_description := none }

def mkElig (id : String) : EligRow :=
  { nct_id := some id, inclusion_criteria := some ("Adults"),
    exclusion_criteria := none, minimum_age := none, maximum_age := none,
    gender := none, healthy_volunteers := none }

def mkCond (id : String) : ConditionRow := { nct_id := some id, condition_name := some ("C") }
def mkKw (id : String) : KeywordRow := { nct_id := some id, keyword := some ("K") }

def mkOutcome (id : String) : OutcomeRow :=
  { nct_id := some id, outcome_type := some ("Primary"),
    outcome_measure := some ("M"), outcome_description := some (""),
    outcome_time_frame := none }

def mkLocation (id : String) : LocationRow :=
  { nct_id := some id, facility_name := some ("F"), facility_address := none,
    facility_city := none, facility_state := none, facility_zip := none,
    facility_country := none, facility_contact_name := none,
    facility_contact_phone := none, facility_contact_email := none }

/-- A corpus in which every trial has all required fields and all
child rows, except that the listed identifiers lack a brief title. -/
def mkCorpus (ids : List String) (untitled : List String) : Store :=
  { trial_basic_info := ids.map (fun id =>
      mkBasic id (if id ∈ untitled then none else some ("Brief Title"))),
    trial_descriptions := ids.map mkDesc,
    trial_eligibility := ids.map mkElig,
    trial_arms_interventions := [],
    trial_outcomes := ids.map mkOutcome,
    trial_locations := ids.map mkLocation,
    trial_conditions := ids.map mkCond,
    trial_keywords := ids.map mkKw }

def c7ids : List String :=
  ["NCT00000001", "NCT00000002", "NCT00000003", "NCT00000004", "NCT00000005",
   "NCT00000006", "NCT00000007", "NCT00000008", "NCT00000009", "NCT00000010"]

/-- Ten trials, three of which lack a brief title; no other defects. -/
def c7corpus : Store :=
  mkCorpus c7ids ["NCT00000001", "NCT00000002", "NCT00000003"]

/-- One defect-free trial. -/
def cleanCorpus : Store := mkCorpus ["NCT00000001"] []

/-- The same identifier stored three times. -/
def corpus3 : Store :=
  { emptyStore with trial_basic_info :=
      [mkBasic ("NCT00000001") (some ("A")), mkBasic ("NCT00000001") (some ("B")),
       mkBasic ("NCT00000001") (some ("C"))] }

/-- No trials at all, but one orphaned description row. -/
def cOrphanOnly : Store :=
  { emptyStore with trial_descriptions :=
      [{ nct_id := some ("NCT00000001"), brief_summary := some ("S"),
         detailed_description := none }] }

/-- An arbitrary reference date for the format checks (none of the
corpora above carry dates, so its value is immaterial). -/
def d0 : Date := ⟨2026, 1, 1⟩

/-- A raw record whose eligibility blob (and every other module) is
absent. -/
def noEligTrial : RawTrial :=
  ⟨none, none, none, none, none, none, none, none, none⟩

/-- A store that already holds a description and an eligibility row for
`NCT00000001`, with old values. -/
def c1Store : Store :=
  { emptyStore with
    trial_basic_info := [mkBasic ("NCT00000001") (some ("Old Title"))],
    trial_descriptions :=
      [{ nct_id := some ("NCT00000001"), brief_summary := some ("old summary"),
         detailed_description := none }],
    trial_eligibility :=
      [{ nct_id := some ("NCT00000001"), inclusion_criteria := some ("old inclusion"),
         exclusion_criteria := none, minimum_age := none, maximum_age := none,
         gender := none, healthy_volunteers := none }] }

/-- A raw registry record for `NCT00000001` carrying a new summary and
new criteria text. -/
def c1Trial : RawTrial :=
  { identificationModule := some
      { nctId := some ("NCT00000001"), orgStudyIdInfo := none,
        organization := none, briefTitle := some ("New Title"),
        officialTitle := none },
    statusModule := none, designModule := none, oversightModule := none,
    eligibilityModule := some
      { eligibilityCriteria := some (.text ("new inclusion")),
        minimumAge := none, maximumAge := none, gender := none,
        healthyVolunteers := none },
    descriptionModule := some
      { briefSummary := some ("new summary"), detailedDescription := none },
    armsInterventionsModule := none, outcomesModule := none,
    contactsLocationsModule := none }

/-- The flat record for `NCT00000001` with new values everywhere and
one element in every child group. -/
def c1TrialData : TrialData :=
  { nct_id := some ("NCT00000001"), protocol_section_id := none,
    organization_name := some ("Org"), organization_type := none,
    brief_title := some ("New Title"), official_title := some ("Official Title"),
    status := some ("RECRUITING"), phase := none,
    study_type := some ("INTERVENTIONAL"), enrollment_count := none,
    enrollment_type := none, start_date := none, completion_date := none,
    primary_completion_date := none, is_fda_regulated_drug := none,
    is_fda_regulated_device := none, is_unapproved_device := none,
    is_ppsd := none, is_us_export := none,
    brief_summary := some ("new summary"), detailed_description := none,
    inclusion_criteria := some ("new inclusion"), exclusion_criteria := none,
    minimum_age := none, maximum_age := none, gender := none,
    healthy_volunteers := none,
    arms_interventions := [⟨some ("Arm A"), none, none, some ("Drug"), none, none⟩],
    outcomes := [⟨some ("Primary"), some ("M"), none, none⟩],
    locations := [⟨some ("F"), none, none, none, none, none, none, none, none⟩],
    conditions := ["Diabetes"],
    keywords := ["insulin"] }

/-- The blob of the spec's own splitter test. -/
def specBlob : String := "Inclusion Criteria: A\nExclusion Criteria\nB"

/-- A blob whose left segment contains the inclusion label in the
middle rather than leading. -/
def midLabelBlob : String := "A Inclusion Criteria: B Exclusion Criteria C"

/-- What the code produces as inclusion text for `midLabelBlob`. -/
def midLabelCodeInclusion : String := "A  B"

/-- What the spec's words produce as inclusion text for `midLabelBlob`. -/
def midLabelSpecInclusion : String := "A Inclusion Criteria: B"

def midLabelExclusion : String := "C"

def specBlobInclusion : String := "A"
def specBlobExclusion : String := "B"

/-! # Theorems -/

/-! ## Properties of the string primitives -/

theorem prefOf_iff : ∀ (p l : List Char), prefOf p l = true ↔ ∃ t, l = p ++ t
  | [], l => by simp [prefOf]
  | _ :: _, [] => by simp [prefOf]
  | a :: as, b :: bs => by
    simp only [prefOf, Bool.and_eq_true, decide_eq_true_eq, List.cons_append,
      List.cons.injEq]
    rw [prefOf_iff as bs]
    constructor
    · rintro ⟨rfl, t, rfl⟩; exact ⟨t, rfl, rfl⟩
    · rintro ⟨t, rfl, rfl⟩; exact ⟨rfl, t, rfl⟩

/-- `splitFirst` really splits at the first occurrence of the
separator: the returned pieces reassemble the input, and no occurrence
starts earlier. -/
theorem splitFirst_eq : ∀ {s sep l r : List Char},
    splitFirst sep s = some (l, r) →
    s = l ++ sep ++ r ∧ ∀ l' r', s = l' ++ sep ++ r' → l.length ≤ l'.length
  | [], _, _, _, h => by simp [splitFirst] at h
  | c :: rest, sep, l, r, h => by
    by_cases hp : prefOf sep (c :: rest) = true
    · rw [splitFirst, if_pos hp] at h
      obtain ⟨t, ht⟩ := (prefOf_iff sep (c :: rest)).mp hp
      obtain ⟨rfl, rfl⟩ : l = [] ∧ (c :: rest).drop sep.length = r := by
        simpa [Prod.ext_iff, eq_comm] using h
      constructor
      · rw [ht, List.drop_left]; simp
      · intro l' r' _; exact Nat.zero_le _
    · rw [splitFirst, if_neg hp] at h
      cases hrest : splitFirst sep rest with
      | none => rw [hrest] at h; simp at h
      | some p =>
        obtain ⟨l0, r0⟩ := p
        rw [hrest] at h
        obtain ⟨rfl, rfl⟩ : c :: l0 = l ∧ r0 = r := by
          simpa [Prod.ext_iff] using h
        obtain ⟨ih1, ih2⟩ := splitFirst_eq hrest
        constructor
        · simp [ih1]
        · intro l' r' heq
          cases l' with
          | nil =>
            exfalso; apply hp
            exact (prefOf_iff sep (c :: rest)).mpr ⟨r', by simpa using heq⟩
          | cons c' l'' =>
            simp only [List.cons_append, List.cons.injEq] at heq
            obtain ⟨rfl, heq⟩ := heq
            simpa using ih2 l'' r' heq

/-- **C3** (corrected). For a blob containing the case-sensitive marker
`"Exclusion Criteria"`, `splitCriteria` splits on its first occurrence
only: the two segments reassemble the blob and no occurrence of the
marker starts earlier; the inclusion text is the left segment with
*every occurrence* of the `"Inclusion Criteria:"` label removed
(Python's `str.replace`, not only a leading label) and whitespace
trimmed, and the exclusion text is the right segment trimmed — a blob
containing the marker twice still yields exactly these two segments.
For a non-empty blob without the marker, the inclusion text is the
whole trimmed blob and the exclusion text is absent; the empty blob
yields two absent segments. -/
theorem splitCriteria_first_occurrence :
    (∀ blob : List Char, containsSub blob exclusionMarker = true →
      ∃ l r, blob = l ++ exclusionMarker ++ r ∧
        (∀ l' r', blob = l' ++ exclusionMarker ++ r' → l.length ≤ l'.length) ∧
        splitCriteria blob =
          (some (pyStrip (replaceAll inclusionLabel [] l)), some (pyStrip r))) ∧
    (∀ blob : List Char, blob ≠ [] → containsSub blob exclusionMarker = false →
      splitCriteria blob = (some (pyStrip blob), none)) ∧
    splitCriteria [] = (none, none) := by
  refine ⟨?_, ?_, rfl⟩
  · intro blob hc
    rw [containsSub, Option.isSome_iff_exists] at hc
    obtain ⟨⟨l, r⟩, hs⟩ := hc
    obtain ⟨h1, h2⟩ := splitFirst_eq hs
    exact ⟨l, r, h1, h2, by simp [splitCriteria, hs]⟩
  · intro blob hne hc
    rw [containsSub] at hc
    have : splitFirst exclusionMarker blob = none := by
      cases h : splitFirst exclusionMarker blob
      · rfl
      · rw [h] at hc; simp at hc
    simp [splitCriteria, this, hne]

/-- Witness for C3, at the spec's own example blob
`"Inclusion Criteria: A\nExclusion Criteria\nB"`. -/
theorem splitCriteria_first_occurrence_witness :
    ∃ l r, specBlob.data = l ++ exclusionMarker ++ r ∧
      (∀ l' r', specBlob.data = l' ++ exclusionMarker ++ r' →
        l.length ≤ l'.length) ∧
      splitCriteria specBlob.data =
        (some (pyStrip (replaceAll inclusionLabel [] l)), some (pyStrip r)) :=
  splitCriteria_first_occurrence.1 specBlob.data (by decide)

/-- Counterexample for C3 as stated: on a blob whose left segment
carries the inclusion label in the middle, the code removes it (it
replaces every occurrence), while the claim's "leading label stripped"
reading leaves it; the two disagree, and the code's inclusion text is
not the left segment with only a leading label stripped. -/
theorem splitCriteria_not_leading_strip :
    splitCriteria midLabelBlob.data ≠ splitCriteriaSpec midLabelBlob.data ∧
    splitCriteria midLabelBlob.data =
      (some midLabelCodeInclusion.data, some midLabelExclusion.data) ∧
    splitCriteriaSpec midLabelBlob.data =
      (some midLabelSpecInclusion.data, some midLabelExclusion.data) := by
  refine ⟨by decide, by decide, by decide⟩

/-! ## Digit and date lemmas -/

theorem isDigitC_cases {c : Char} (h : isDigitC c = true) :
    c = '0' ∨ c = '1' ∨ c = '2' ∨ c = '3' ∨ c = '4' ∨
    c = '5' ∨ c = '6' ∨ c = '7' ∨ c = '8' ∨ c = '9' := by
  simpa [isDigitC, or_assoc] using h

theorem daysInMonth_le_31 (y m : Nat) : daysInMonth y m ≤ 31 := by
  unfold daysInMonth
  split_ifs <;> omega

theorem digitVal_le_9 {c : Char} (h : isDigitC c = true) : digitVal c ≤ 9 := by
  rcases isDigitC_cases h with rfl | rfl | rfl | rfl | rfl | rfl | rfl | rfl | rfl | rfl <;> decide

theorem digitChar_digitVal {c : Char} (h : isDigitC c = true) :
    digitChar (digitVal c) = c := by
  rcases isDigitC_cases h with rfl | rfl | rfl | rfl | rfl | rfl | rfl | rfl | rfl | rfl <;> rfl

theorem isDigitC_digitChar {k : Nat} (h : k ≤ 9) : isDigitC (digitChar k) = true := by
  interval_cases k <;> rfl

theorem digitVal_digitChar {k : Nat} (h : k ≤ 9) : digitVal (digitChar k) = k := by
  interval_cases k <;> rfl

theorem parseYMD_render {y m d : Nat} (h : isValidDate y m d) :
    parseYMD (renderYMD y m d) = some ⟨y, m, d⟩ := by
  obtain ⟨h1, h2, h3, h4, h5, h6⟩ := h
  have hy1 : y / 1000 ≤ 9 := by omega
  have hy2 : y / 100 % 10 ≤ 9 := by omega
  have hy3 : y / 10 % 10 ≤ 9 := by omega
  have hy4 : y % 10 ≤ 9 := by omega
  have hm1 : m / 10 ≤ 9 := by omega
  have hm2 : m % 10 ≤ 9 := by omega
  have h31 : d ≤ 31 := le_trans h6 (daysInMonth_le_31 y m)
  have hd1 : d / 10 ≤ 9 := by omega
  have hd2 : d % 10 ≤ 9 := by omega
  simp only [renderYMD, pad4, pad2, List.cons_append, List.nil_append, parseYMD,
    isDigitC_digitChar hy1, isDigitC_digitChar hy2, isDigitC_digitChar hy3,
    isDigitC_digitChar hy4, isDigitC_digitChar hm1, isDigitC_digitChar hm2,
    isDigitC_digitChar hd1, isDigitC_digitChar hd2,
    digitVal_digitChar hy1, digitVal_digitChar hy2, digitVal_digitChar hy3,
    digitVal_digitChar hy4, digitVal_digitChar hm1, digitVal_digitChar hm2,
    digitVal_digitChar hd1, digitVal_digitChar hd2]
  have hY : ((y / 1000 * 10 + y / 100 % 10) * 10 + y / 10 % 10) * 10 + y % 10 = y := by omega
  have hM : m / 10 * 10 + m % 10 = m := by omega
  have hD : d / 10 * 10 + d % 10 = d := by omega
  rw [hY, hM, hD]
  simp [h1, h3, h4, h5, h6]

theorem parseYM_render {y m : Nat} (h1 : 1 ≤ y) (h2 : y ≤ 9999)
    (h3 : 1 ≤ m) (h4 : m ≤ 12) :
    parseYM (renderYM y m) = some ⟨y, m, 1⟩ := by
  have hy1 : y / 1000 ≤ 9 := by omega
  have hy2 : y / 100 % 10 ≤ 9 := by omega
  have hy3 : y / 10 % 10 ≤ 9 := by omega
  have hy4 : y % 10 ≤ 9 := by omega
  have hm1 : m / 10 ≤ 9 := by omega
  have hm2 : m % 10 ≤ 9 := by omega
  simp only [renderYM, pad4, pad2, List.cons_append, List.nil_append, parseYM,
    isDigitC_digitChar hy1, isDigitC_digitChar hy2, isDigitC_digitChar hy3,
    isDigitC_digitChar hy4, isDigitC_digitChar hm1, isDigitC_digitChar hm2,
    digitVal_digitChar hy1, digitVal_digitChar hy2, digitVal_digitChar hy3,
    digitVal_digitChar hy4, digitVal_digitChar hm1, digitVal_digitChar hm2]
  have hY : ((y / 1000 * 10 + y / 100 % 10) * 10 + y / 10 % 10) * 10 + y % 10 = y := by omega
  have hM : m / 10 * 10 + m % 10 = m := by omega
  rw [hY, hM]
  simp [h1, h3, h4]

theorem parseYMD_inv {s : List Char} {dt : Date} (h : parseYMD s = some dt) :
    isValidDate dt.year dt.month dt.day ∧ s = renderYMD dt.year dt.month dt.day := by
  rcases s with _ | ⟨c1, _ | ⟨c2, _ | ⟨c3, _ | ⟨c4, _ | ⟨c5, _ | ⟨c6, _ | ⟨c7, _ | ⟨c8, _ | ⟨c9, _ | ⟨c10, _ | ⟨c11, t⟩⟩⟩⟩⟩⟩⟩⟩⟩⟩⟩ <;>
    try (exact Option.noConfusion h)
  simp only [parseYMD] at h
  split_ifs at h with hdig hrange
  · simp only [Bool.and_eq_true, decide_eq_true_eq] at hdig hrange
    obtain ⟨⟨⟨⟨⟨⟨⟨⟨⟨hc1, hc2⟩, hc3⟩, hc4⟩, hc5⟩, hc6⟩, hc7⟩, hc8⟩, hc9⟩, hc10⟩ := hdig
    subst hc5; subst hc8
    obtain ⟨⟨⟨⟨hr1, hr2⟩, hr3⟩, hr4⟩, hr5⟩ := hrange
    obtain rfl : (⟨((digitVal c1 * 10 + digitVal c2) * 10 + digitVal c3) * 10 + digitVal c4,
        digitVal c6 * 10 + digitVal c7, digitVal c9 * 10 + digitVal c10⟩ : Date) = dt := by
      simpa using h
    have d1 := digitVal_le_9 hc1
    have d2 := digitVal_le_9 hc2
    have d3 := digitVal_le_9 hc3
    have d4 := digitVal_le_9 hc4
    have d6 := digitVal_le_9 hc6
    have d7 := digitVal_le_9 hc7
    have d9 := digitVal_le_9 hc9
    have d10 := digitVal_le_9 hc10
    have hy9999 : ((digitVal c1 * 10 + digitVal c2) * 10 + digitVal c3) * 10 + digitVal c4 ≤ 9999 := by
      omega
    constructor
    · exact ⟨hr1, hy9999, hr2, hr3, hr4, hr5⟩
    · simp only [renderYMD, pad4, pad2, List.cons_append, List.nil_append]
      have e1 : (((digitVal c1 * 10 + digitVal c2) * 10 + digitVal c3) * 10 + digitVal c4) / 1000 = digitVal c1 := by omega
      have e2 : (((digitVal c1 * 10 + digitVal c2) * 10 + digitVal c3) * 10 + digitVal c4) / 100 % 10 = digitVal c2 := by omega
      have e3 : (((digitVal c1 * 10 + digitVal c2) * 10 + digitVal c3) * 10 + digitVal c4) / 10 % 10 = digitVal c3 := by omega
      have e4 : (((digitVal c1 * 10 + digitVal c2) * 10 + digitVal c3) * 10 + digitVal c4) % 10 = digitVal c4 := by omega
      have e6 : (digitVal c6 * 10 + digitVal c7) / 10 = digitVal c6 := by omega
      have e7 : (digitVal c6 * 10 + digitVal c7) % 10 = digitVal c7 := by omega
      have e9 : (digitVal c9 * 10 + digitVal c10) / 10 = digitVal c9 := by omega
      have e10 : (digitVal c9 * 10 + digitVal c10) % 10 = digitVal c10 := by omega
      rw [e1, e2, e3, e4, e6, e7, e9, e10,
        digitChar_digitVal hc1, digitChar_digitVal hc2, digitChar_digitVal hc3,
        digitChar_digitVal hc4, digitChar_digitVal hc6, digitChar_digitVal hc7,
        digitChar_digitVal hc9, digitChar_digitVal hc10]

theorem parseYM_inv {s : List Char} {dt : Date} (h : parseYM s = some dt) :
    dt.day = 1 ∧ 1 ≤ dt.year ∧ dt.year ≤ 9999 ∧ 1 ≤ dt.month ∧ dt.month ≤ 12 ∧
      s = renderYM dt.year dt.month := by
  rcases s with _ | ⟨c1, _ | ⟨c2, _ | ⟨c3, _ | ⟨c4, _ | ⟨c5, _ | ⟨c6, _ | ⟨c7, _ | ⟨c8, t⟩⟩⟩⟩⟩⟩⟩⟩ <;>
    try (exact Option.noConfusion h)
  simp only [parseYM] at h
  split_ifs at h with hdig hrange
  · simp only [Bool.and_eq_true, decide_eq_true_eq] at hdig hrange
    obtain ⟨⟨⟨⟨⟨⟨hc1, hc2⟩, hc3⟩, hc4⟩, hc5⟩, hc6⟩, hc7⟩ := hdig
    subst hc5
    obtain ⟨⟨hr1, hr2⟩, hr3⟩ := hrange
    obtain rfl : (⟨((digitVal c1 * 10 + digitVal c2) * 10 + digitVal c3) * 10 + digitVal c4,
        digitVal c6 * 10 + digitVal c7, 1⟩ : Date) = dt := by
      simpa using h
    have d1 := digitVal_le_9 hc1
    have d2 := digitVal_le_9 hc2
    have d3 := digitVal_le_9 hc3
    have d4 := digitVal_le_9 hc4
    have d6 := digitVal_le_9 hc6
    have d7 := digitVal_le_9 hc7
    have hy9999 : ((digitVal c1 * 10 + digitVal c2) * 10 + digitVal c3) * 10 + digitVal c4 ≤ 9999 := by
      omega
    refine ⟨rfl, hr1, hy9999, hr2, hr3, ?_⟩
    simp only [renderYM, pad4, pad2, List.cons_append, List.nil_append]
    have e1 : (((digitVal c1 * 10 + digitVal c2) * 10 + digitVal c3) * 10 + digitVal c4) / 1000 = digitVal c1 := by omega
    have e2 : (((digitVal c1 * 10 + digitVal c2) * 10 + digitVal c3) * 10 + digitVal c4) / 100 % 10 = digitVal c2 := by omega
    have e3 : (((digitVal c1 * 10 + digitVal c2) * 10 + digitVal c3) * 10 + digitVal c4) / 10 % 10 = digitVal c3 := by omega
    have e4 : (((digitVal c1 * 10 + digitVal c2) * 10 + digitVal c3) * 10 + digitVal c4) % 10 = digitVal c4 := by omega
    have e6 : (digitVal c6 * 10 + digitVal c7) / 10 = digitVal c6 := by omega
    have e7 : (digitVal c6 * 10 + digitVal c7) % 10 = digitVal c7 := by omega
    rw [e1, e2, e3, e4, e6, e7,
      digitChar_digitVal hc1, digitChar_digitVal hc2, digitChar_digitVal hc3,
      digitChar_digitVal hc4, digitChar_digitVal hc6, digitChar_digitVal hc7]

theorem renderYMD_length (y m d : Nat) : (renderYMD y m d).length = 10 := by
  simp [renderYMD, pad4, pad2]

theorem renderYM_length (y m : Nat) : (renderYM y m).length = 7 := by
  simp [renderYM, pad4, pad2]

/-- **C8** (confirmed).  `parse_date` recovers exactly the calendar
date denoted by a `YYYY-MM-DD` rendering of any valid date and by a
`YYYY-MM` rendering of any valid year-month (taking day 1); conversely
every successful parse arises from such a rendering, so every other
string (the empty string included) yields absent.  `parse_date` is a
total function, so it never raises. -/
theorem parse_date_roundtrip :
    (∀ y m d, isValidDate y m d → parse_date (renderYMD y m d) = some ⟨y, m, d⟩) ∧
    (∀ y m, 1 ≤ y → y ≤ 9999 → 1 ≤ m → m ≤ 12 →
      parse_date (renderYM y m) = some ⟨y, m, 1⟩) ∧
    (∀ s dt, parse_date s = some dt →
      (isValidDate dt.year dt.month dt.day ∧ s = renderYMD dt.year dt.month dt.day) ∨
      (dt.day = 1 ∧ 1 ≤ dt.year ∧ dt.year ≤ 9999 ∧ 1 ≤ dt.month ∧ dt.month ≤ 12 ∧
        s = renderYM dt.year dt.month)) := by
  refine ⟨?_, ?_, ?_⟩
  · intro y m d h
    have hne : renderYMD y m d ≠ [] := by
      intro he
      have := renderYMD_length y m d
      rw [he] at this
      simp at this
    rw [parse_date, if_neg hne, renderYMD_length, if_neg (by omega), if_pos rfl]
    exact parseYMD_render h
  · intro y m h1 h2 h3 h4
    have hne : renderYM y m ≠ [] := by
      intro he
      have := renderYM_length y m
      rw [he] at this
      simp at this
    rw [parse_date, if_neg hne, renderYM_length, if_pos rfl]
    exact parseYM_render h1 h2 h3 h4
  · intro s dt h
    rw [parse_date] at h
    split_ifs at h with h0 h7 h10
    all_goals first
      | exact absurd h (by simp)
      | exact Or.inr (parseYM_inv h)
      | exact Or.inl (parseYMD_inv h)

/-- Witness for C8 at concrete dates (a leap day and a year-month). -/
theorem parse_date_roundtrip_witness :
    parse_date (renderYMD 2024 2 29) = some ⟨2024, 2, 29⟩ ∧
    parse_date (renderYM 1999 12) = some ⟨1999, 12, 1⟩ :=
  ⟨parse_date_roundtrip.1 2024 2 29 (by decide),
   parse_date_roundtrip.2.1 1999 12 (by decide) (by decide) (by decide) (by decide)⟩

/-! ## Transaction lemmas for the upsert writer -/

theorem execList_cases (f : Store → α → Store) :
    ∀ (xs : List α) (b : Option Nat) (s : Store),
      (∃ e, execList f b s xs = .error e) ∨
      ∃ b', execList f b s xs = .ok (b', xs.foldl f s)
  | [], b, _ => Or.inr ⟨b, rfl⟩
  | x :: rest, b, s => by
    cases hb : tick b with
    | error e => exact Or.inl ⟨e, by simp [execList, hb]⟩
    | ok b1 =>
      rcases execList_cases f rest b1 (f s x) with ⟨e, he⟩ | ⟨b', hb'⟩
      · exact Or.inl ⟨e, by simp [execList, hb, he]⟩
      · exact Or.inr ⟨b', by simp [execList, hb, hb']⟩

theorem execList_none_ok (f : Store → α → Store) :
    ∀ (xs : List α) (s : Store), execList f none s xs = .ok (none, xs.foldl f s)
  | [], _ => rfl
  | x :: rest, s => by
    simp [execList, tick, execList_none_ok f rest (f s x)]

theorem insert_trial_data_none (s : Store) (t : TrialData) :
    insert_trial_data none s t = (true, applyTrial t s) := by
  rw [insert_trial_data, execList_none_ok]
  rfl

/-- **C2** (confirmed).  `insert_trial_data` is atomic per record: for
every connectivity-fault schedule, every store and every record, the
call either leaves the store exactly as it was and reports failure, or
reports success with every write of the record applied; and the
ingestion loop of `search_and_extract_trials` likewise either leaves
the whole store untouched (one `rollback`, which cannot affect records
committed by earlier calls) or commits the batch it built. -/
theorem insert_trial_data_atomic :
    (∀ (b : Option Nat) (s : Store) (t : TrialData),
      insert_trial_data b s t = (false, s) ∨
      insert_trial_data b s t = (true, applyTrial t s)) ∧
    (∀ (s : Store) (ts : List RawTrial),
      searchAndExtractPersist s ts = (false, s) ∨
      ∃ s', persistTrials s ts = .ok s' ∧
        searchAndExtractPersist s ts = (true, s')) := by
  constructor
  · intro b s t
    rcases execList_cases applyOp (opsOfTrialData t) b s with ⟨e, he⟩ | ⟨b', hb'⟩
    · left; rw [insert_trial_data, he]
    · right; rw [insert_trial_data, hb']; rfl
  · intro s ts
    cases h : persistTrials s ts with
    | ok s' => exact Or.inr ⟨s', rfl, by rw [searchAndExtractPersist, h]⟩
    | error e => exact Or.inl (by rw [searchAndExtractPersist, h])

/-! ## Per-table effect of one record's write sequence -/

theorem foldl_applyOp_arms : ∀ (ops : List Op) (s : Store),
    ((ops.foldl applyOp s).trial_arms_interventions) =
      s.trial_arms_interventions ++ ops.filterMap opArm
  | [], _ => by simp
  | op :: rest, s => by
    cases op <;>
      simp [applyOp, opArm, foldl_applyOp_arms rest, List.append_assoc]

theorem foldl_applyOp_outcomes : ∀ (ops : List Op) (s : Store),
    ((ops.foldl applyOp s).trial_outcomes) =
      s.trial_outcomes ++ ops.filterMap opOutcome
  | [], _ => by simp
  | op :: rest, s => by
    cases op <;>
      simp [applyOp, opOutcome, foldl_applyOp_outcomes rest, List.append_assoc]

theorem foldl_applyOp_locations : ∀ (ops : List Op) (s : Store),
    ((ops.foldl applyOp s).trial_locations) =
      s.trial_locations ++ ops.filterMap opLocation
  | [], _ => by simp
  | op :: rest, s => by
    cases op <;>
      simp [applyOp, opLocation, foldl_applyOp_locations rest, List.append_assoc]

theorem foldl_applyOp_conditions : ∀ (ops : List Op) (s : Store),
    ((ops.foldl applyOp s).trial_conditions) =
      s.trial_conditions ++ ops.filterMap opCondition
  | [], _ => by simp
  | op :: rest, s => by
    cases op <;>
      simp [applyOp, opCondition, foldl_applyOp_conditions rest, List.append_assoc]

theorem foldl_applyOp_keywords : ∀ (ops : List Op) (s : Store),
    ((ops.foldl applyOp s).trial_keywords) =
      s.trial_keywords ++ ops.filterMap opKeyword
  | [], _ => by simp
  | op :: rest, s => by
    cases op <;>
      simp [applyOp, opKeyword, foldl_applyOp_keywords rest, List.append_assoc]

theorem filterMap_some_fn {α β : Type} (g : α → β) (l : List α) :
    l.filterMap (fun x => some (g x)) = l.map g := by
  induction l <;> simp_all

theorem filterMap_none_fn {α β : Type} (l : List α) :
    (l.filterMap (fun _ => (none : Option β))) = [] := by
  induction l <;> simp_all

theorem filterMap_opArm_ops (t : TrialData) :
    (opsOfTrialData t).filterMap opArm =
      t.arms_interventions.map (armRowOfInput t.nct_id) := by
  rw [opsOfTrialData]
  split_ifs <;>
    simp [List.filterMap_append, List.filterMap_map, Function.comp_def,
      filterMap_some_fn, filterMap_none_fn, opArm,
      List.filterMap_eq_map]

theorem filterMap_opOutcome_ops (t : TrialData) :
    (opsOfTrialData t).filterMap opOutcome =
      t.outcomes.map (outcomeRowOfInput t.nct_id) := by
  rw [opsOfTrialData]
  split_ifs <;>
    simp [List.filterMap_append, List.filterMap_map, Function.comp_def,
      filterMap_some_fn, filterMap_none_fn, opOutcome,
      List.filterMap_eq_map]

theorem filterMap_opLocation_ops (t : TrialData) :
    (opsOfTrialData t).filterMap opLocation =
      t.locations.map (locationRowOfInput t.nct_id) := by
  rw [opsOfTrialData]
  split_ifs <;>
    simp [List.filterMap_append, List.filterMap_map, Function.comp_def,
      filterMap_some_fn, filterMap_none_fn, opLocation,
      List.filterMap_eq_map]

theorem filterMap_opCondition_ops (t : TrialData) :
    (opsOfTrialData t).filterMap opCondition =
      t.conditions.map (conditionRowOfInput t.nct_id) := by
  rw [opsOfTrialData]
  split_ifs <;>
    simp [List.filterMap_append, List.filterMap_map, Function.comp_def,
      filterMap_some_fn, filterMap_none_fn, opCondition,
      List.filterMap_eq_map]

theorem filterMap_opKeyword_ops (t : TrialData) :
    (opsOfTrialData t).filterMap opKeyword =
      t.keywords.map (keywordRowOfInput t.nct_id) := by
  rw [opsOfTrialData]
  split_ifs <;>
    simp [List.filterMap_append, List.filterMap_map, Function.comp_def,
      filterMap_some_fn, filterMap_none_fn, opKeyword,
      List.filterMap_eq_map]

theorem applyTrial_arms (t : TrialData) (s : Store) :
    (applyTrial t s).trial_arms_interventions =
      s.trial_arms_interventions ++ t.arms_interventions.map (armRowOfInput t.nct_id) := by
  rw [applyTrial, foldl_applyOp_arms, filterMap_opArm_ops]

theorem applyTrial_outcomes (t : TrialData) (s : Store) :
    (applyTrial t s).trial_outcomes =
      s.trial_outcomes ++ t.outcomes.map (outcomeRowOfInput t.nct_id) := by
  rw [applyTrial, foldl_applyOp_outcomes, filterMap_opOutcome_ops]

theorem applyTrial_locations (t : TrialData) (s : Store) :
    (applyTrial t s).trial_locations =
      s.trial_locations ++ t.locations.map (locationRowOfInput t.nct_id) := by
  rw [applyTrial, foldl_applyOp_locations, filterMap_opLocation_ops]

theorem applyTrial_conditions (t : TrialData) (s : Store) :
    (applyTrial t s).trial_conditions =
      s.trial_conditions ++ t.conditions.map (conditionRowOfInput t.nct_id) := by
  rw [applyTrial, foldl_applyOp_conditions, filterMap_opCondition_ops]

theorem applyTrial_keywords (t : TrialData) (s : Store) :
    (applyTrial t s).trial_keywords =
      s.trial_keywords ++ t.keywords.map (keywordRowOfInput t.nct_id) := by
  rw [applyTrial, foldl_applyOp_keywords, filterMap_opKeyword_ops]

/-- **C6** (confirmed).  The child-table writes of `insert_trial_data`
are pure inserts: persisting the same record twice appends the child
rows again, so the row count of every non-empty child group strictly
increases between the first and the second persist (and the appended
rows are exactly the record's rows, duplicated). -/
theorem child_inserts_append (s : Store) (t : TrialData) :
    ((insert_trial_data none s t).2 = applyTrial t s) ∧
    (t.arms_interventions ≠ [] →
      (applyTrial t (applyTrial t s)).trial_arms_interventions.length >
        (applyTrial t s).trial_arms_interventions.length) ∧
    (t.outcomes ≠ [] →
      (applyTrial t (applyTrial t s)).trial_outcomes.length >
        (applyTrial t s).trial_outcomes.length) ∧
    (t.locations ≠ [] →
      (applyTrial t (applyTrial t s)).trial_locations.length >
        (applyTrial t s).trial_locations.length) ∧
    (t.conditions ≠ [] →
      (applyTrial t (applyTrial t s)).trial_conditions.length >
        (applyTrial t s).trial_conditions.length) ∧
    (t.keywords ≠ [] →
      (applyTrial t (applyTrial t s)).trial_keywords.length >
        (applyTrial t s).trial_keywords.length) := by
  refine ⟨by rw [insert_trial_data_none], ?_, ?_, ?_, ?_, ?_⟩
  · intro h
    rw [applyTrial_arms t (applyTrial t s)]
    have : t.arms_interventions.length ≠ 0 := by
      simpa [List.length_eq_zero] using h
    simp
    omega
  · intro h
    rw [applyTrial_outcomes t (applyTrial t s)]
    have : t.outcomes.length ≠ 0 := by
      simpa [List.length_eq_zero] using h
    simp
    omega
  · intro h
    rw [applyTrial_locations t (applyTrial t s)]
    have : t.locations.length ≠ 0 := by
      simpa [List.length_eq_zero] using h
    simp
    omega
  · intro h
    rw [applyTrial_conditions t (applyTrial t s)]
    have : t.conditions.length ≠ 0 := by
      simpa [List.length_eq_zero] using h
    simp
    omega
  · intro h
    rw [applyTrial_keywords t (applyTrial t s)]
    have : t.keywords.length ≠ 0 := by
      simpa [List.length_eq_zero] using h
    simp
    omega

/-- Witness for C6, at a record with one element in every child group. -/
theorem child_inserts_append_witness :
    (applyTrial c1TrialData (applyTrial c1TrialData emptyStore)).trial_conditions.length >
      (applyTrial c1TrialData emptyStore).trial_conditions.length ∧
    (applyTrial c1TrialData (applyTrial c1TrialData emptyStore)).trial_keywords.length >
      (applyTrial c1TrialData emptyStore).trial_keywords.length :=
  ⟨(child_inserts_append emptyStore c1TrialData).2.2.2.2.1 (by decide),
   (child_inserts_append emptyStore c1TrialData).2.2.2.2.2 (by decide)⟩

/-! ## Upsert lemmas for the 1:1 tables -/

theorem foldl_applyOp_descriptions : ∀ (ops : List Op) (s : Store),
    ((ops.foldl applyOp s).trial_descriptions) =
      (ops.filterMap opDesc).foldl (fun rows r => upsertDesc r rows)
        s.trial_descriptions
  | [], _ => rfl
  | op :: rest, s => by
    cases op <;> simp [applyOp, opDesc, foldl_applyOp_descriptions rest]

theorem foldl_applyOp_eligibility : ∀ (ops : List Op) (s : Store),
    ((ops.foldl applyOp s).trial_eligibility) =
      (ops.filterMap opElig).foldl (fun rows r => upsertElig r rows)
        s.trial_eligibility
  | [], _ => rfl
  | op :: rest, s => by
    cases op <;> simp [applyOp, opElig, foldl_applyOp_eligibility rest]

theorem filterMap_opDesc_ops (t : TrialData) :
    (opsOfTrialData t).filterMap opDesc =
      if truthyS t.brief_summary || truthyS t.detailed_description then
        [descRowOfTrialData t]
      else [] := by
  rw [opsOfTrialData]
  split_ifs <;>
    simp [List.filterMap_append, List.filterMap_map, Function.comp_def,
      filterMap_some_fn, filterMap_none_fn, opDesc]

theorem filterMap_opElig_ops (t : TrialData) :
    (opsOfTrialData t).filterMap opElig =
      if truthyS t.inclusion_criteria || truthyS t.exclusion_criteria then
        [eligRowOfTrialData t]
      else [] := by
  rw [opsOfTrialData]
  split_ifs <;>
    simp [List.filterMap_append, List.filterMap_map, Function.comp_def,
      filterMap_some_fn, filterMap_none_fn, opElig]

theorem applyTrial_descriptions (t : TrialData) (s : Store) :
    (applyTrial t s).trial_descriptions =
      if truthyS t.brief_summary || truthyS t.detailed_description then
        upsertDesc (descRowOfTrialData t) s.trial_descriptions
      else s.trial_descriptions := by
  rw [applyTrial, foldl_applyOp_descriptions, filterMap_opDesc_ops]
  split_ifs <;> simp

theorem applyTrial_eligibility (t : TrialData) (s : Store) :
    (applyTrial t s).trial_eligibility =
      if truthyS t.inclusion_criteria || truthyS t.exclusion_criteria then
        upsertElig (eligRowOfTrialData t) s.trial_eligibility
      else s.trial_eligibility := by
  rw [applyTrial, foldl_applyOp_eligibility, filterMap_opElig_ops]
  split_ifs <;> simp

/-- An insert-or-update over a row set holding exactly one row with the
conflicting key leaves exactly one row with that key, the attempted
row. -/
theorem filter_upsert_map {α : Type} (p : α → Bool) (cand : α) (hc : p cand = true) :
    ∀ rows : List α, (rows.filter p).length = 1 →
      ((rows.map fun r => if p r then cand else r).filter p) = [cand]
  | [], h => by simp at h
  | r :: rest, h => by
    by_cases hr : p r = true
    · have h' := h
      simp [List.filter_cons, hr] at h'
      have hnone : ∀ r' ∈ rest, ¬(p r' = true) := by
        intro r' hm hp
        rw [h' r' hm] at hp
        exact Bool.false_ne_true hp
      have hmapped : (rest.map fun r' => if p r' then cand else r').filter p = [] := by
        rw [List.filter_eq_nil_iff]
        intro b hb
        obtain ⟨r', hm, rfl⟩ := List.mem_map.mp hb
        rw [if_neg (hnone r' hm)]
        exact hnone r' hm
      simp [List.filter_cons, hr, hc, hmapped]
    · have h' : (rest.filter p).length = 1 := by
        simpa [List.filter_cons, hr] using h
      simp [List.filter_cons, hr, filter_upsert_map p cand hc rest h']

theorem upsertDesc_one (cand : DescRow) (rows : List DescRow) (id : String)
    (hc : cand.nct_id = some id)
    (h1 : (rows.filter fun r => r.nct_id == some id).length = 1) :
    (upsertDesc cand rows).filter (fun r => r.nct_id == some id) = [cand] := by
  have hpc : (cand.nct_id == some id) = true := by rw [hc]; simp
  have hex : ∃ r ∈ rows, (r.nct_id == some id) = true := by
    rcases hfil : rows.filter (fun r => r.nct_id == some id) with _ | ⟨r, rest⟩
    · rw [hfil] at h1; simp at h1
    · have hm : r ∈ rows.filter (fun r => r.nct_id == some id) := by
        rw [hfil]; exact List.mem_cons_self r rest
      have := List.mem_filter.mp hm
      exact ⟨r, this.1, this.2⟩
  have hcond : (cand.nct_id.isSome &&
      rows.any (fun r => r.nct_id == cand.nct_id)) = true := by
    rw [hc]
    simp only [Option.isSome_some, Bool.true_and, List.any_eq_true]
    exact hex
  rw [upsertDesc, if_pos hcond, hc]
  exact filter_upsert_map _ cand hpc rows h1

theorem upsertElig_one (cand : EligRow) (rows : List EligRow) (id : String)
    (hc : cand.nct_id = some id)
    (h1 : (rows.filter fun r => r.nct_id == some id).length = 1) :
    (upsertElig cand rows).filter (fun r => r.nct_id == some id) = [cand] := by
  have hpc : (cand.nct_id == some id) = true := by rw [hc]; simp
  have hex : ∃ r ∈ rows, (r.nct_id == some id) = true := by
    rcases hfil : rows.filter (fun r => r.nct_id == some id) with _ | ⟨r, rest⟩
    · rw [hfil] at h1; simp at h1
    · have hm : r ∈ rows.filter (fun r => r.nct_id == some id) := by
        rw [hfil]; exact List.mem_cons_self r rest
      have := List.mem_filter.mp hm
      exact ⟨r, this.1, this.2⟩
  have hcond : (cand.nct_id.isSome &&
      rows.any (fun r => r.nct_id == cand.nct_id)) = true := by
    rw [hc]
    simp only [Option.isSome_some, Bool.true_and, List.any_eq_true]
    exact hex
  rw [upsertElig, if_pos hcond, hc]
  exact filter_upsert_map _ cand hpc rows h1

/-- **C1** (corrected).  In `EnhancedDataManager.insert_trial_data` the
`Description` and `Eligibility` writes are insert-or-update keyed on
`nct_id` whenever the record carries truthy description (resp.
criteria) fields: afterward exactly one row exists for that `nct_id`
and it holds the newly supplied values.  In `main.insert_basic_info`,
however, the same writes are plain `INSERT`s with no `ON CONFLICT`
clause: when a `Description` row for the identifier already exists,
the statement raises a unique-key violation and the enclosing
transaction rolls back, leaving the old row unchanged. -/
theorem description_eligibility_upsert :
    (∀ (s : Store) (t : TrialData) (id : String),
      t.nct_id = some id →
      (truthyS t.brief_summary || truthyS t.detailed_description) = true →
      (s.trial_descriptions.filter fun r => r.nct_id == some id).length = 1 →
      ((insert_trial_data none s t).2.trial_descriptions.filter
        fun r => r.nct_id == some id) = [descRowOfTrialData t] ∧
      (insert_trial_data none s t).1 = true) ∧
    (∀ (s : Store) (t : TrialData) (id : String),
      t.nct_id = some id →
      (truthyS t.inclusion_criteria || truthyS t.exclusion_criteria) = true →
      (s.trial_eligibility.filter fun r => r.nct_id == some id).length = 1 →
      ((insert_trial_data none s t).2.trial_eligibility.filter
        fun r => r.nct_id == some id) = [eligRowOfTrialData t]) ∧
    (∀ (s : Store) (t : RawTrial) (inc exc : Option String) (id : String),
      (t.identificationModule.getD emptyIdent).nctId = some id →
      extractCriteriaInsertBasicInfo (t.eligibilityModule.getD emptyElig) =
        .ok (inc, exc) →
      (truthyS (t.descriptionModule.getD emptyDesc).briefSummary ||
        truthyS (t.descriptionModule.getD emptyDesc).detailedDescription) = true →
      (s.trial_descriptions.any fun r => r.nct_id == some id) = true →
      insert_basic_info s t = .error .uniqueViolation ∧
      ∀ ts, searchAndExtractPersist s (t :: ts) = (false, s)) := by
  refine ⟨?_, ?_, ?_⟩
  · intro s t id hid ht h1
    rw [insert_trial_data_none]
    refine ⟨?_, rfl⟩
    rw [applyTrial_descriptions, if_pos ht]
    exact upsertDesc_one _ _ id (by rw [descRowOfTrialData, hid]) h1
  · intro s t id hid ht h1
    rw [insert_trial_data_none]
    rw [applyTrial_eligibility, if_pos ht]
    exact upsertElig_one _ _ id (by rw [eligRowOfTrialData, hid]) h1
  · intro s t inc exc id hid hex ht hany
    have hcond : ((some id : Option String).isSome &&
        s.trial_descriptions.any (fun r => r.nct_id == some id)) = true := by
      simpa using hany
    have hmain : insert_basic_info s t = .error .uniqueViolation := by
      rw [insert_basic_info, hex]
      simp only [Bind.bind, Except.bind, ht, if_pos]
      rw [insertUniqueDesc, hid, if_pos hcond]
    refine ⟨hmain, fun ts => ?_⟩
    have : persistTrials s (t :: ts) = .error .uniqueViolation := by
      rw [persistTrials]
      simp only [Bind.bind, Except.bind, persistOneTrial, hmain]
    rw [searchAndExtractPersist, this]

/-- Witness for C1 at a concrete store already holding description and
eligibility rows for `NCT00000001`, and concrete records. -/
theorem description_eligibility_upsert_witness :
    (((insert_trial_data none c1Store c1TrialData).2.trial_descriptions.filter
        fun r => r.nct_id == some ("NCT00000001")) =
      [descRowOfTrialData c1TrialData]) ∧
    (((insert_trial_data none c1Store c1TrialData).2.trial_eligibility.filter
        fun r => r.nct_id == some ("NCT00000001")) =
      [eligRowOfTrialData c1TrialData]) ∧
    insert_basic_info c1Store c1Trial = .error .uniqueViolation :=
  ⟨(description_eligibility_upsert.1 c1Store c1TrialData ("NCT00000001")
      (by decide) (by decide) (by decide)).1,
   description_eligibility_upsert.2.1 c1Store c1TrialData ("NCT00000001")
      (by decide) (by decide) (by decide),
   (description_eligibility_upsert.2.2 c1Store c1Trial
      (some ("new inclusion")) none ("NCT00000001")
      (by decide) (by rfl) (by decide) (by decide)).1⟩

/-- Counterexample for C1 as stated: `main.insert_basic_info` on a
record whose identifier already has a `Description` (and `Eligibility`)
row does not upsert — the whole call rolls back, so the store still
holds the old description row with the old values, not the newly
supplied ones. -/
theorem description_insert_not_upsert :
    searchAndExtractPersist c1Store [c1Trial] = (false, c1Store) ∧
    (c1Store.trial_descriptions.map fun r => r.brief_summary) =
      [some ("old summary")] ∧
    (c1Trial.descriptionModule.getD emptyDesc).briefSummary =
      some ("new summary") := by
  refine ⟨by decide, by decide, by decide⟩

/-- **C4** (code_bug).  In `insert_basic_info` the containment test
`'Exclusion Criteria' in full_criteria_text` runs on the unguarded
blob, so a record with an absent eligibility blob raises `TypeError`
and aborts the whole ingestion call — whereas the sibling extraction
in `search_and_extract_trials` (guarded with `or ''`) maps the same
absent blob to two absent criteria, as the claim requires. -/
theorem absent_blob_raises :
    extractCriteriaInsertBasicInfo emptyElig = .error .typeError ∧
    insert_basic_info emptyStore noEligTrial = .error .typeError ∧
    searchAndExtractPersist emptyStore [noEligTrial] = (false, emptyStore) ∧
    extractCriteriaSearch emptyElig = (none, none) := by
  refine ⟨rfl, rfl, rfl, rfl⟩

/-! ## Quality-checker lemmas -/

theorem ratFloor_eq_intFloor (q : ℚ) : Rat.floor q = ⌊q⌋ := rfl

theorem mem_dedupAux [DecidableEq α] (a : α) :
    ∀ (l seen : List α), a ∈ dedupAux seen l ↔ a ∈ l ∧ a ∉ seen
  | [], seen => by simp [dedupAux]
  | b :: l, seen => by
    rw [dedupAux]
    by_cases hb : b ∈ seen
    · rw [if_pos hb, mem_dedupAux a l seen]
      by_cases hab : a = b
      · subst hab; simp [hb]
      · simp [hab]
    · rw [if_neg hb]
      simp only [List.mem_cons, mem_dedupAux a l (b :: seen)]
      by_cases hab : a = b
      · subst hab; simp [hb]
      · simp [hab]

theorem nodup_dedupAux [DecidableEq α] :
    ∀ (l seen : List α), (dedupAux seen l).Nodup
  | [], seen => by simp [dedupAux]
  | b :: l, seen => by
    rw [dedupAux]
    by_cases hb : b ∈ seen
    · rw [if_pos hb]; exact nodup_dedupAux l seen
    · rw [if_neg hb]
      refine List.nodup_cons.mpr ⟨?_, nodup_dedupAux l (b :: seen)⟩
      intro hmem
      exact ((mem_dedupAux b l (b :: seen)).mp hmem).2 (List.mem_cons_self b seen)

theorem mem_dedupFirst [DecidableEq α] (a : α) (l : List α) :
    a ∈ dedupFirst l ↔ a ∈ l := by
  rw [dedupFirst, mem_dedupAux]
  simp

theorem nodup_dedupFirst [DecidableEq α] (l : List α) : (dedupFirst l).Nodup :=
  nodup_dedupAux l []

theorem mem_duplicate_nct_ids (c : Store) (k : Option String) (n : Nat) :
    (k, n) ∈ duplicate_nct_ids c ↔
      ((c.trial_basic_info.map (fun r => r.nct_id)).count k = n ∧ 1 < n) := by
  rw [duplicate_nct_ids, List.mem_filterMap]
  constructor
  · rintro ⟨k', _, hf⟩
    dsimp only at hf
    split_ifs at hf with h
    · obtain ⟨rfl, rfl⟩ :
          k' = k ∧ (c.trial_basic_info.map (fun r => r.nct_id)).count k' = n := by
        simpa [Prod.ext_iff] using hf
      exact ⟨rfl, h⟩
  · rintro ⟨hcount, hn⟩
    refine ⟨k, ?_, ?_⟩
    · rw [mem_dedupFirst]
      have : 0 < (c.trial_basic_info.map (fun r => r.nct_id)).count k := by omega
      exact List.count_pos_iff.mp this
    · dsimp only
      rw [hcount, if_pos hn]

theorem map_fst_dupFilter (cnt : Option String → Nat) :
    ∀ (l : List (Option String)),
      ((l.filterMap (fun k => if cnt k > 1 then some (k, cnt k) else none)).map
        Prod.fst) = l.filter (fun k => decide (cnt k > 1))
  | [] => rfl
  | k :: l => by
    by_cases h : cnt k > 1 <;>
      simp [List.filterMap_cons, List.filter_cons, h, map_fst_dupFilter cnt l]

/-- **C9** (confirmed).  The duplicate-identifier check reports exactly
the distinct identifiers occurring more than once in `trial_basic_info`
(`(k, n)` is reported iff `k` occurs `n > 1` times, with no identifier
listed twice); on a corpus holding `NCT00000001` three times it yields
one duplicate entry with repetition count 3, the consistency result
records one duplicated identifier, and the issue list carries a single
summary line plus a single per-identifier line — not three separate
issues. -/
theorem duplicate_identifier_check :
    (∀ (c : Store) (k : Option String) (n : Nat),
      (k, n) ∈ duplicate_nct_ids c ↔
        ((c.trial_basic_info.map (fun r => r.nct_id)).count k = n ∧ 1 < n)) ∧
    (∀ c : Store, ((duplicate_nct_ids c).map Prod.fst).Nodup) ∧
    duplicate_nct_ids corpus3 = [(some ("NCT00000001"), 3)] ∧
    consistencyChecks corpus3 =
      [("invalid_dates", 0), ("invalid_enrollment", 0),
       ("duplicate_nct_ids", 1), ("orphaned_records", 0)] ∧
    consistencyIssues corpus3 =
      ["duplicate_nct_ids: 1 duplicate NCT IDs found",
       "  - NCT ID NCT00000001 appears 3 times"] := by
  refine ⟨mem_duplicate_nct_ids, ?_, by decide, by decide, by decide⟩
  intro c
  rw [duplicate_nct_ids, map_fst_dupFilter]
  exact (nodup_dedupFirst _).filter _

/-- **C7** (corrected).  On an empty corpus the scorer returns the
fixed all-zero "No Data" assessment.  On a corpus of 10 trials with 3
completeness issues and none elsewhere, the completeness score is 70.0
— but a category with zero issues scores 100, not 0, so the overall
score is 0.30·70 + 0.30·100 + 0.20·100 + 0.20·100 = 91.0 and the level
is "Excellent". -/
theorem scorer_values :
    check_data_quality_score noFaults d0 emptyStore [] =
      ({ overall_score := 0, completeness_score := 0, consistency_score := 0,
         format_score := 0, relationship_score := 0, total_trials := 0,
         total_issues := 0, quality_level := "No Data",
         message := some ("No trials found") }, []) ∧
    (check_data_quality_score noFaults d0 c7corpus []).1.completeness_score = 70 ∧
    (check_data_quality_score noFaults d0 c7corpus []).1.consistency_score = 100 ∧
    (check_data_quality_score noFaults d0 c7corpus []).1.format_score = 100 ∧
    (check_data_quality_score noFaults d0 c7corpus []).1.relationship_score = 100 ∧
    (check_data_quality_score noFaults d0 c7corpus []).1.overall_score = 91 ∧
    (check_data_quality_score noFaults d0 c7corpus []).1.total_trials = 10 ∧
    (check_data_quality_score noFaults d0 c7corpus []).1.quality_level = "Excellent" := by
  have hz : ¬c7corpus.trial_basic_info.length = 0 := by decide
  have hlen : c7corpus.trial_basic_info.length = 10 := by decide
  have hcomp : sumCounts (completenessChecks c7corpus) = 3 := by decide
  have hcons : sumCounts (consistencyChecks c7corpus) = 0 := by decide
  have hfmt : sumCounts (formatChecks d0 c7corpus) = 0 := by decide
  have hrel : sumCounts (relationshipChecks c7corpus) = 0 := by decide
  refine ⟨rfl, ?_, ?_, ?_, ?_, ?_, ?_, ?_⟩
  all_goals simp only [check_data_quality_score]
  all_goals rw [if_neg hz]
  all_goals simp only [check_data_completeness, check_data_consistency,
    check_data_format, check_data_relationships, noFaults, Bool.false_eq_true,
    if_false, hlen, hcomp, hcons, hfmt, hrel]
  all_goals norm_num [categoryScore, round2, max_def, quality_level_of,
    ratFloor_eq_intFloor]

/-- Counterexample for C7 as stated: on the claim's 10-trial,
3-completeness-issue corpus, the overall score is 91.0 and the level
"Excellent" — not 21.0 and "Critical". -/
theorem scorer_not_critical :
    (check_data_quality_score noFaults d0 c7corpus []).1.overall_score ≠ 21 ∧
    (check_data_quality_score noFaults d0 c7corpus []).1.quality_level ≠ "Critical" ∧
    (check_data_quality_score noFaults d0 c7corpus []).1.overall_score = 91 ∧
    (check_data_quality_score noFaults d0 c7corpus []).1.quality_level = "Excellent" := by
  have hz : ¬c7corpus.trial_basic_info.length = 0 := by decide
  have hlen : c7corpus.trial_basic_info.length = 10 := by decide
  have hcomp : sumCounts (completenessChecks c7corpus) = 3 := by decide
  have hcons : sumCounts (consistencyChecks c7corpus) = 0 := by decide
  have hfmt : sumCounts (formatChecks d0 c7corpus) = 0 := by decide
  have hrel : sumCounts (relationshipChecks c7corpus) = 0 := by decide
  refine ⟨?_, ?_, ?_, ?_⟩
  all_goals simp only [check_data_quality_score]
  all_goals rw [if_neg hz]
  all_goals simp only [check_data_completeness, check_data_consistency,
    check_data_format, check_data_relationships, noFaults, Bool.false_eq_true,
    if_false, hlen, hcomp, hcons, hfmt, hrel]
  all_goals try norm_num [categoryScore, round2, max_def, quality_level_of,
    ratFloor_eq_intFloor]
  all_goals decide

/-- **C5** (corrected).  A category aborted by a connectivity failure
returns an empty per-check mapping and appends no issues — so in the
raw category results it is distinguishable from explicit zero counts —
but the quality-score computation sums the empty mapping to zero
issues: the failed category scores 100, and the whole assessment of a
clean corpus with a failed completeness category is identical to the
assessment with no failure, so a failed check is not always
distinguishable from a genuinely clean corpus. -/
theorem failed_category_reporting :
    (∀ (c : Store) (issues : List String),
      check_data_completeness true c issues = ([], issues)) ∧
    (∀ (c : Store) (issues : List String),
      check_data_consistency true c issues = ([], issues)) ∧
    (∀ (today : Date) (c : Store) (issues : List String),
      check_data_format true today c issues = ([], issues)) ∧
    (∀ (c : Store) (issues : List String),
      check_data_relationships true c issues = ([], issues)) ∧
    (∀ (today : Date) (c : Store) (issues : List String),
      c.trial_basic_info ≠ [] →
      (check_data_quality_score ⟨true, false, false, false⟩ today c
        issues).1.completeness_score = 100) ∧
    check_data_quality_score ⟨true, false, false, false⟩ d0 cleanCorpus [] =
      check_data_quality_score noFaults d0 cleanCorpus [] := by
  refine ⟨fun c issues => rfl, fun c issues => rfl, fun today c issues => rfl,
    fun c issues => rfl, ?_, ?_⟩
  · intro today c issues h
    have htot : ¬c.trial_basic_info.length = 0 := by
      simpa [List.length_eq_zero] using h
    simp only [check_data_quality_score]
    rw [if_neg htot]
    simp only [check_data_completeness, eq_self_iff_true, if_true]
    norm_num [sumCounts, categoryScore, round2, max_def, ratFloor_eq_intFloor]
  · have hz : ¬cleanCorpus.trial_basic_info.length = 0 := by decide
    have e0 : sumCounts ([] : List (String × Nat)) = 0 := rfl
    have e1 : completenessIssues cleanCorpus = [] := by decide
    have e2 : sumCounts (completenessChecks cleanCorpus) = 0 := by decide
    simp only [check_data_quality_score]
    rw [if_neg hz, if_neg hz]
    simp only [check_data_completeness, noFaults, Bool.false_eq_true, if_false,
      eq_self_iff_true, if_true, e0, e1, e2, List.append_nil, List.nil_append]

/-- Witness for C5 at the one-trial clean corpus. -/
theorem failed_category_reporting_witness :
    (check_data_quality_score ⟨true, false, false, false⟩ d0 cleanCorpus
      []).1.completeness_score = 100 :=
  failed_category_reporting.2.2.2.2.1 d0 cleanCorpus [] (by decide)

/-- Counterexample for C5 as stated: with the completeness category
aborted by a connectivity failure, the quality assessment of a clean
corpus is exactly the assessment of the same corpus with no failure —
the aborted category is reported as a 100-score, zero-issue category,
not as unavailable. -/
theorem failed_category_indistinguishable :
    check_data_quality_score ⟨true, false, false, false⟩ d0 cleanCorpus [] =
      check_data_quality_score noFaults d0 cleanCorpus [] ∧
    (check_data_quality_score ⟨true, false, false, false⟩ d0 cleanCorpus
      []).1.completeness_score = 100 ∧
    (check_data_quality_score ⟨true, false, false, false⟩ d0 cleanCorpus
      []).2 = [] := by
  have hz : ¬cleanCorpus.trial_basic_info.length = 0 := by decide
  have e1 : completenessIssues cleanCorpus = [] := by decide
  have e2 : sumCounts (completenessChecks cleanCorpus) = 0 := by decide
  have e0 : sumCounts ([] : List (String × Nat)) = 0 := rfl
  refine ⟨?_, ?_, by decide⟩
  · simp only [check_data_quality_score]
    rw [if_neg hz, if_neg hz]
    simp only [check_data_completeness, noFaults, Bool.false_eq_true, if_false,
      eq_self_iff_true, if_true, e0, e1, e2, List.append_nil, List.nil_append]
  · simp only [check_data_quality_score]
    rw [if_neg hz]
    simp only [check_data_completeness, eq_self_iff_true, if_true, e0]
    norm_num [categoryScore, round2, max_def, ratFloor_eq_intFloor]

/-- **C10** (corrected).  On every corpus with at least one
`trial_basic_info` row, `run_full_quality_check` runs each category
twice — once directly and once inside the score computation — against
one never-reset issue list, so the returned issue list is exactly two
copies of a single pass and the reported `total_issues` is twice the
single-pass count.  (On an empty corpus the score computation returns
early, so the categories run only once — see the counterexample.) -/
theorem full_check_runs_categories_twice (today : Date) (c : Store)
    (h : c.trial_basic_info ≠ []) :
    (run_full_quality_check noFaults today c).issues =
      onePassIssues today c ++ onePassIssues today c ∧
    (run_full_quality_check noFaults today c).quality_assessment.total_issues =
      2 * (onePassIssues today c).length := by
  have htot : c.trial_basic_info.length ≠ 0 := by
    simpa [List.length_eq_zero] using h
  rw [run_full_quality_check]
  simp only [check_data_completeness, check_data_consistency, check_data_format,
    check_data_relationships, check_data_quality_score, noFaults,
    Bool.false_eq_true, if_false, if_neg htot, onePassIssues]
  constructor
  · simp [List.append_assoc]
  · simp [List.length_append]
    omega

/-- Witness for C10 at the ten-trial corpus (whose single pass yields
one issue line, doubled by the full check). -/
theorem full_check_runs_categories_twice_witness :
    (run_full_quality_check noFaults d0 c7corpus).issues =
      onePassIssues d0 c7corpus ++ onePassIssues d0 c7corpus ∧
    (run_full_quality_check noFaults d0 c7corpus).quality_assessment.total_issues =
      2 * (onePassIssues d0 c7corpus).length :=
  full_check_runs_categories_twice d0 c7corpus (by decide)

/-- Counterexample for C10 as stated ("for every corpus"): a corpus
with no `trial_basic_info` rows but one orphaned description row
produces one consistency issue per pass, yet the full check's issue
list holds it once only (the empty-corpus early return skips the second
pass) and reports `total_issues` as the fixed 0 of the "No Data"
assessment. -/
theorem full_check_empty_corpus_single_pass :
    (run_full_quality_check noFaults d0 cOrphanOnly).issues =
      onePassIssues d0 cOrphanOnly ∧
    onePassIssues d0 cOrphanOnly ≠ [] ∧
    (run_full_quality_check noFaults d0 cOrphanOnly).issues ≠
      onePassIssues d0 cOrphanOnly ++ onePassIssues d0 cOrphanOnly ∧
    (run_full_quality_check noFaults d0
      cOrphanOnly).quality_assessment.total_issues = 0 := by
  refine ⟨by decide, by decide, by decide, by decide⟩

end ClinicalTrials
